import Mathlib

/-!
Debug window: the render-flags panel of `DebugWindow::RenderMenuBar`.

Shallow embedding of `src/Application/Windows/DebugWindow.cpp`.

* The render-flags mask is a `Nat` below `2 ^ width`, where `width` is the number of bits of
  the underlying unsigned type of `enum RenderFlags`.
* The enum, its bitwise operators and the accessors of the render layer and of the scene are
  declared in headers outside the translated sources; the enumerator values and the width are
  parameters (`RenderFlagsDecl`), the operators are the usual bitwise ones.
* The immediate-mode widgets (`ImGui::Checkbox`, `BulletDebugDraw::DrawModeGui`) are external:
  a frame supplies, for each widget, its response as a function of the value it is shown.
* Calls that leave the function are recorded, in program order, in a trace.
-/

namespace DebugWindow

/-! ## Data model -/

/-- Declaration of `enum RenderFlags` (header `RenderLayer.h`): the number of bits of the
underlying unsigned integer type and the numeric values of the three enumerators that
`RenderMenuBar` names. -/
structure RenderFlagsDecl where
  width : Nat
  EnableColorCorrection : Nat
  EnableColdCorrection : Nat
  EnableBWCorrection : Nat
deriving DecidableEq, Repr

/-- Modelled from the spec: the enumerator `RenderFlags::None` is declared in `RenderLayer.h`;
the spec describes it as "mask = 0 (no flags set)". -/
def RenderFlags.None : Nat := 0

/-- Modelled from the spec: the operator `~` on the underlying integer of the enum, declared
with the enum in `RenderLayer.h`; the spec has the bits "mutated via bitwise OR/AND-NOT" on "a
fixed-width integer". Bitwise complement on an unsigned integer of `w` bits. -/
def bitNot (w x : Nat) : Nat := (2 ^ w - 1 - x) % 2 ^ w

/-- Modelled from the spec: the unary `*` of the enum, declared with it in `RenderLayer.h`,
followed by the conversion to `bool`; the spec has the panel "extract its boolean state via
bitwise AND against the mask". True exactly when some bit is set. -/
def toBool (x : Nat) : Bool := x != 0

/-- The three checkboxes, in the order in which `RenderMenuBar` draws them. -/
inductive Box where
  | Warm
  | Cold
  | BW
deriving DecidableEq, Repr

/-- The label each checkbox is drawn with. -/
def Box.label : Box → String
  | .Warm => "Enable Warm Correction"
  | .Cold => "Enable Cold Correction"
  | .BW => "Enable Black and White Correction"

/-- The enumerator each checkbox edits. -/
def Box.flag (E : RenderFlagsDecl) : Box → Nat
  | .Warm => E.EnableColorCorrection
  | .Cold => E.EnableColdCorrection
  | .BW => E.EnableBWCorrection

/-- Result of one call `ImGui::Checkbox(label, &temp)`: the returned `bool` and the value of
`temp` after the call. -/
structure CheckboxResult where
  changed : Bool
  value : Bool
deriving DecidableEq, Repr

/-- Behaviour of one checkbox in one frame, as a function of the value of `temp` on entry. -/
abbrev Checkbox := Bool → CheckboxResult

/-- A checkbox the user clicks in this frame: it flips its boolean and reports a change. -/
def Checkbox.toggled : Checkbox := fun v => { changed := true, value := !v }

/-- A checkbox the user leaves alone: the boolean is kept and no change is reported. -/
def Checkbox.idle : Checkbox := fun v => { changed := false, value := v }

/-- A checkbox that is clicked exactly when `t` is true. -/
def Checkbox.ofToggle (t : Bool) : Checkbox := if t then Checkbox.toggled else Checkbox.idle

/-- The user interface of one frame: the response of `BulletDebugDraw::DrawModeGui` to the mode
it is shown (returned `bool`, mode after the call) and the responses of the three checkboxes. -/
structure Frame where
  drawModeGui : Nat → Bool × Nat
  warm : Checkbox
  cold : Checkbox
  bw : Checkbox

/-- The response of the checkbox `b` in the frame `ui`. -/
def Frame.box (ui : Frame) : Box → Checkbox
  | .Warm => ui.warm
  | .Cold => ui.cold
  | .BW => ui.bw

/-- Calls made by `RenderMenuBar`, with their arguments. -/
inductive Event where
  | GetPhysicsDebugDrawMode
  | DrawModeGui (mode : Nat)
  | SetPhysicsDebugDrawMode (mode : Nat)
  | Separator
  | GetRenderFlags
  | Checkbox (box : Box) (temp : Bool)
  | SetRenderFlags (flags : Nat)
deriving DecidableEq, Repr

/-- Modelled from the spec: the state behind `Application::Get()` that the menu bar reads and
writes, "a render layer exposing GetRenderFlags() -> Bitmask and SetRenderFlags(Bitmask)" and
"a scene exposing physics debug-draw mode get/set" (classes `RenderLayer` and `Scene`), together
with the calls made so far, oldest first. -/
structure App where
  renderFlags : Nat
  physicsDebugDrawMode : Nat
  trace : List Event
deriving DecidableEq, Repr

/-- Local variables `flags` and `changed` of `RenderMenuBar`, with the calls made so far. -/
structure Locals where
  flags : Nat
  changed : Bool
  trace : List Event
deriving DecidableEq, Repr

/-! ## Operations -/

/-- The assignment `flags = (flags & ~*F) | (temp ? F : RenderFlags::None)`, with `&` and `|`
of the enum read as bitwise AND and OR of the underlying integers. -/
def assignBit (w F : Nat) (temp : Bool) (flags : Nat) : Nat :=
  (flags &&& bitNot w F) ||| (if temp then F else RenderFlags.None)

/-- One checkbox block of `RenderMenuBar`:
`temp = *(flags & F); if (ImGui::Checkbox(label, &temp)) { changed = true; flags = ...; }`. -/
def checkboxBlock (E : RenderFlagsDecl) (b : Box) (cb : Checkbox) (l : Locals) : Locals :=
  let temp := toBool (l.flags &&& b.flag E)
  let r := cb temp
  let trace := l.trace ++ [Event.Checkbox b temp]
  if r.changed then
    { flags := assignBit E.width (b.flag E) r.value l.flags, changed := true, trace := trace }
  else
    { l with trace := trace }

/-- The three checkbox blocks, from `bool changed = false;` to the last checkbox, started on
the mask `flags` read from the render layer. -/
def checkboxes (E : RenderFlagsDecl) (ui : Frame) (flags : Nat) (trace : List Event) : Locals :=
  let l : Locals := { flags := flags, changed := false, trace := trace }
  let l := checkboxBlock E Box.Warm ui.warm l
  let l := checkboxBlock E Box.Cold ui.cold l
  let l := checkboxBlock E Box.BW ui.bw l
  l

/-- The physics part of `RenderMenuBar`: read the scene's mode, show it, store it on change. -/
def physicsBlock (ui : Frame) (app : App) : App :=
  let physicsDrawMode := app.physicsDebugDrawMode
  let r := ui.drawModeGui physicsDrawMode
  let trace := app.trace ++ [Event.GetPhysicsDebugDrawMode, Event.DrawModeGui physicsDrawMode]
  if r.1 then
    { app with physicsDebugDrawMode := r.2, trace := trace ++ [Event.SetPhysicsDebugDrawMode r.2] }
  else
    { app with trace := trace }

/-- The function `DebugWindow::RenderMenuBar`, one call per frame. -/
def RenderMenuBar (E : RenderFlagsDecl) (ui : Frame) (app : App) : App :=
  let app := physicsBlock ui app
  let app := { app with trace := app.trace ++ [Event.Separator] }
  let flags := app.renderFlags
  let l := checkboxes E ui flags (app.trace ++ [Event.GetRenderFlags])
  if l.changed then
    { app with renderFlags := l.flags, trace := l.trace ++ [Event.SetRenderFlags l.flags] }
  else
    { app with trace := l.trace }

/-- The contract of the panel, `render(currentFlags) -> (didChange, newFlags)`: the values of
`changed` and `flags` after the three checkbox blocks. -/
def render (E : RenderFlagsDecl) (ui : Frame) (currentFlags : Nat) : Bool × Nat :=
  let l := checkboxes E ui currentFlags []
  (l.changed, l.flags)

/-- The masks passed to `SetRenderFlags` in a trace, oldest first. -/
def setRenderFlagsCalls : List Event → List Nat
  | [] => []
  | Event.SetRenderFlags m :: es => m :: setRenderFlagsCalls es
  | _ :: es => setRenderFlagsCalls es

/-- The values of `temp` passed to `ImGui::Checkbox` for the box `b` in a trace. -/
def checkboxShown (b : Box) : List Event → List Bool
  | [] => []
  | Event.Checkbox c t :: es => if c = b then t :: checkboxShown b es else checkboxShown b es
  | _ :: es => checkboxShown b es

/-! ## Well-formedness of the declaration -/

/-- The enumerators fit the underlying type. -/
def RenderFlagsDecl.InRange (E : RenderFlagsDecl) : Prop :=
  E.EnableColorCorrection < 2 ^ E.width ∧ E.EnableColdCorrection < 2 ^ E.width ∧
    E.EnableBWCorrection < 2 ^ E.width

/-- The three feature flags are distinct single bits of the underlying type: bit `i` for warm
correction, bit `j` for cold correction, bit `k` for black-and-white correction. -/
def RenderFlagsDecl.SingleBits (E : RenderFlagsDecl) (i j k : Nat) : Prop :=
  E.EnableColorCorrection = 2 ^ i ∧ E.EnableColdCorrection = 2 ^ j ∧
    E.EnableBWCorrection = 2 ^ k ∧ i < E.width ∧ j < E.width ∧ k < E.width ∧
    i ≠ j ∧ i ≠ k ∧ j ≠ k

/-! ## Sample inputs -/

/-- A declaration used for concrete checks: a 32-bit enum with warm correction on bit 0, cold
correction on bit 1 and black-and-white correction on bit 2. -/
def sampleDecl : RenderFlagsDecl :=
  { width := 32, EnableColorCorrection := 1, EnableColdCorrection := 2, EnableBWCorrection := 4 }

/-- A declaration whose enumerators span several bits and overlap: 3, 6 and 6 on eight
bits. -/
def overlapDecl : RenderFlagsDecl :=
  { width := 8, EnableColorCorrection := 3, EnableColdCorrection := 6, EnableBWCorrection := 6 }

/-- The bit position of each feature flag, given the positions of the three flags. -/
def Box.bit (i j k : Nat) : Box → Nat
  | .Warm => i
  | .Cold => j
  | .BW => k

/-- A frame in which the physics control answers `g` and the three checkboxes are clicked as
told by `tw`, `tc`, `tb`. -/
def toggleFrame (g : Nat → Bool × Nat) (tw tc tb : Bool) : Frame :=
  { drawModeGui := g
    warm := Checkbox.ofToggle tw
    cold := Checkbox.ofToggle tc
    bw := Checkbox.ofToggle tb }

/-- A frame in which, of the three checkboxes, only `b` is clicked. -/
def onlyToggle (g : Nat → Bool × Nat) (b : Box) : Frame :=
  toggleFrame g (decide (b = Box.Warm)) (decide (b = Box.Cold)) (decide (b = Box.BW))

/-- An application state used for concrete checks: the render layer holds the mask `m`, the
scene the mode 0, and no call has been made yet. -/
def sampleApp (m : Nat) : App := { renderFlags := m, physicsDebugDrawMode := 0, trace := [] }

/-- A physics control that is left alone. -/
def idleGui : Nat → Bool × Nat := fun mode => (false, mode)

/-- Whether the checkbox `b` is clicked, given the clicks of the three checkboxes. -/
def Box.toggle (tw tc tb : Bool) : Box → Bool
  | .Warm => tw
  | .Cold => tc
  | .BW => tb

/-! ## Derived quantities -/

/-- The checkbox blocks of the boxes of `order`, run one after the other in that order;
`RenderMenuBar` runs them in the order warm, cold, black-and-white. -/
def checkboxesIn (E : RenderFlagsDecl) (ui : Frame) (order : List Box) (l : Locals) : Locals :=
  order.foldl (fun l b => checkboxBlock E b (ui.box b) l) l

/-- The calls made by one run of `RenderMenuBar` started in `app`, oldest first. -/
def frameTrace (E : RenderFlagsDecl) (ui : Frame) (app : App) : List Event :=
  (RenderMenuBar E ui { app with trace := [] }).trace

/-- The value of `temp` a checkbox block computes from `flags` and passes to its checkbox. -/
def shown (E : RenderFlagsDecl) (b : Box) (flags : Nat) : Bool := toBool (flags &&& b.flag E)

/-- The value of `flags` after a checkbox block entered with `flags`. -/
def blockFlags (E : RenderFlagsDecl) (b : Box) (cb : Checkbox) (flags : Nat) : Nat :=
  (checkboxBlock E b cb { flags := flags, changed := false, trace := [] }).flags

/-- The value of `flags` after the block of `b` entered with `flags`, written out from the
source for a checkbox that is clicked exactly when `t` is true: `temp = *(flags & F)`, the
click flips `temp`, and `flags = (flags & ~*F) | (temp ? F : RenderFlags::None)`; without a
click the block leaves `flags` alone. -/
def clickFlags (E : RenderFlagsDecl) (b : Box) (t : Bool) (flags : Nat) : Nat :=
  if t then
    (flags &&& bitNot E.width (b.flag E)) |||
      (if !toBool (flags &&& b.flag E) then b.flag E else RenderFlags.None)
  else flags

/-- The modes passed to `SetPhysicsDebugDrawMode` in a trace, oldest first. -/
def setPhysicsDebugDrawModeCalls : List Event → List Nat
  | [] => []
  | Event.SetPhysicsDebugDrawMode mode :: es => mode :: setPhysicsDebugDrawModeCalls es
  | _ :: es => setPhysicsDebugDrawModeCalls es

/-- The modes `BulletDebugDraw::DrawModeGui` is shown in a trace, oldest first. -/
def drawModeGuiCalls : List Event → List Nat
  | [] => []
  | Event.DrawModeGui mode :: es => mode :: drawModeGuiCalls es
  | _ :: es => drawModeGuiCalls es

end DebugWindow

/-!
Scene builder: `DefaultSceneLayer::_CreateScene`.

Shallow embedding of `src/Application/Layers/DefaultSceneLayer.cpp`. The function only calls
into the engine (resource manager, scene, game objects, components, application), so it is
embedded as the list of the calls it makes, in program order, one entry per call or field
assignment of the source. Arguments are kept as written: names of local variables, string
literals, integer literals, decimal literals in thousandths, and nested pure expressions. The
state of the filesystem enters through `std::filesystem::exists`, a parameter. Every call into
the engine is taken to return normally: the spec leaves the failures of the engine (a missing
asset file, a bad shader path) to the engine.
-/

namespace DefaultSceneLayer

/-! ## Data model -/

/-- An argument of a call, as the source writes it. -/
inductive Value where
  /-- A local variable of `_CreateScene`. -/
  | ref (name : String)
  /-- A string literal. -/
  | str (text : String)
  /-- An integer literal. -/
  | int (n : Int)
  /-- A decimal literal such as `0.1f` or `7.640`, in thousandths. -/
  | dec (thousandths : Int)
  /-- A named constant: an enumerator or a constant such as `ZERO`. -/
  | sym (name : String)
  /-- A nested pure expression `fn(args)`, such as `glm::vec3(...)`. -/
  | call (fn : String) (args : List Value)
  /-- A brace initialiser. -/
  | init (items : List Value)
  /-- The value returned by the call just before. -/
  | temp

/-- The asset classes `_CreateScene` instantiates through `ResourceManager::CreateAsset<T>`. -/
inductive AssetType where
  | ShaderProgram
  | MeshResource
  | Texture1D
  | Texture2D
  | Texture3D
  | TextureCube
  | Material
deriving DecidableEq, Repr

/-- The calls and field assignments `_CreateScene` makes on the engine. -/
inductive Call where
  /-- Call `app.LoadScene(path)`: load the scene from a file. -/
  | LoadSceneFile (path : String)
  /-- Call `ResourceManager::CreateAsset<type>(args)`, bound to `result` when it is named. -/
  | CreateAsset (type : AssetType) (args : List Value) (result : Option String)
  /-- Call `asset->method(args)` on a shader, texture, mesh or material. -/
  | AssetCall (asset method : String) (args : List Value)
  /-- Assignment `asset->field = value`. -/
  | AssetAssign (asset field : String) (value : Value)
  /-- The statement `Scene::Sptr result = std::make_shared<Scene>()`. -/
  | MakeScene (result : String)
  /-- Call `scene->method(args)`. -/
  | SceneCall (scene method : String) (args : List Value)
  /-- Call `scene->Lights.resize(n)`. -/
  | LightsResize (scene : String) (n : Nat)
  /-- Assignment `scene->Lights[index].field = value`. -/
  | LightAssign (scene : String) (index : Nat) (field : String) (value : Value)
  /-- The statement `result = scene->MainCamera->GetGameObject()->SelfRef()`. -/
  | MainCameraObject (scene result : String)
  /-- The statement `result = scene->CreateGameObject(name)`. -/
  | CreateGameObject (scene name result : String)
  /-- Call `object->method(args)` on a game object. -/
  | ObjectCall (object method : String) (args : List Value)
  /-- Call `object->Add<component>()`, bound to `result` when it is named. -/
  | AddComponent (object component : String) (result : Option String)
  /-- Call `component->method(args)`. -/
  | ComponentCall (component method : String) (args : List Value)
  /-- Assignment `component->field = value`. -/
  | ComponentAssign (component field : String) (value : Value)
  /-- Call `GuiBatcher::method(args)`. -/
  | GuiBatcherCall (method : String) (args : List Value)
  /-- Call `ResourceManager::SaveManifest(path)`. -/
  | SaveManifest (path : String)
  /-- Call `scene->Save(path)`. -/
  | SceneSave (scene path : String)
  /-- Call `app.LoadScene(scene)`: hand the scene object to the application. -/
  | LoadScene (scene : String)

/-- The expression `glm::vec3(x, y, z)`, components in thousandths. -/
def vec3 (x y z : Int) : Value := .call "glm::vec3" [.dec x, .dec y, .dec z]

/-- The initialiser of a shader's parts: a vertex and a fragment shader file. -/
def shaderParts (vertex fragment : String) : Value :=
  .init [.init [.sym "ShaderPartType::Vertex", .str vertex],
    .init [.sym "ShaderPartType::Fragment", .str fragment]]

/-- The statement `name = ResourceManager::CreateAsset<ShaderProgram>(...)`. -/
def createShader (name vertex fragment : String) : Call :=
  .CreateAsset .ShaderProgram [shaderParts vertex fragment] (some name)

/-- The statement `name = ResourceManager::CreateAsset<type>(path)`. -/
def createFromFile (type : AssetType) (name path : String) : Call :=
  .CreateAsset type [.str path] (some name)

/-- The statement `name = ResourceManager::CreateAsset<Material>(shader)`. -/
def createMaterial (name shader : String) : Call :=
  .CreateAsset .Material [.ref shader] (some name)

/-- Call `material->Set(uniform, value)`. -/
def materialSet (material uniform : String) (value : Value) : Call :=
  .AssetCall material "Set" [.str uniform, value]

/-! ## The procedure -/

/-- Lines 101 to 154: the eight shader programs and their debug names. -/
def createShaders : List Call :=
  [ createShader "reflectiveShader" "shaders/vertex_shaders/basic.glsl"
      "shaders/fragment_shaders/frag_environment_reflective.glsl",
    .AssetCall "reflectiveShader" "SetDebugName" [.str "Reflective"],
    createShader "basicShader" "shaders/vertex_shaders/basic.glsl"
      "shaders/fragment_shaders/frag_blinn_phong_textured.glsl",
    .AssetCall "basicShader" "SetDebugName" [.str "Blinn-phong"],
    createShader "specShader" "shaders/vertex_shaders/basic.glsl"
      "shaders/fragment_shaders/textured_specular.glsl",
    .AssetCall "specShader" "SetDebugName" [.str "Textured-Specular"],
    createShader "foliageShader" "shaders/vertex_shaders/foliage.glsl"
      "shaders/fragment_shaders/screendoor_transparency.glsl",
    .AssetCall "foliageShader" "SetDebugName" [.str "Foliage"],
    createShader "toonShader" "shaders/vertex_shaders/basic.glsl"
      "shaders/fragment_shaders/toon_shading.glsl",
    .AssetCall "toonShader" "SetDebugName" [.str "Toon Shader"],
    createShader "displacementShader" "shaders/vertex_shaders/displacement_mapping.glsl"
      "shaders/fragment_shaders/frag_tangentspace_normal_maps.glsl",
    .AssetCall "displacementShader" "SetDebugName" [.str "Displacement Mapping"],
    createShader "tangentSpaceMapping" "shaders/vertex_shaders/basic.glsl"
      "shaders/fragment_shaders/frag_tangentspace_normal_maps.glsl",
    .AssetCall "tangentSpaceMapping" "SetDebugName" [.str "Tangent Space Mapping"],
    createShader "multiTextureShader" "shaders/vertex_shaders/vert_multitextured.glsl"
      "shaders/fragment_shaders/frag_multitextured.glsl",
    .AssetCall "multiTextureShader" "SetDebugName" [.str "Multitexturing"] ]

/-- Lines 157 to 186: the meshes, the textures, the lookup table of the toon shader, the cube
map and the shader of the skybox. -/
def loadMeshesAndTextures : List Call :=
  [ createFromFile .MeshResource "carMesh" "car.obj",
    createFromFile .MeshResource "carMesh2" "car2.obj",
    createFromFile .MeshResource "buildingMesh" "building1.obj",
    createFromFile .MeshResource "buildingMesh1" "building1.obj",
    createFromFile .MeshResource "monkeyMesh" "TrafficL.obj",
    createFromFile .Texture2D "boxTexture" "textures/asphalt.png",
    createFromFile .Texture2D "boxSpec" "textures/box-specular.png",
    createFromFile .Texture2D "LightTex" "textures/light.png",
    createFromFile .Texture2D "carTex" "textures/car.png",
    createFromFile .Texture2D "car2Tex" "textures/car2.png",
    createFromFile .Texture2D "buildTex" "textures/2build texture.png",
    createFromFile .Texture2D "buildTex2" "textures/2build.png",
    createFromFile .Texture2D "buildTex3" "textures/build.png",
    createFromFile .Texture2D "leafTex" "textures/leaves.png",
    .AssetCall "leafTex" "SetMinFilter" [.sym "MinFilter::Nearest"],
    .AssetCall "leafTex" "SetMagFilter" [.sym "MagFilter::Nearest"],
    createFromFile .Texture1D "toonLut" "luts/toon-1D.png",
    .AssetCall "toonLut" "SetWrap" [.sym "WrapMode::ClampToEdge"],
    createFromFile .TextureCube "testCubemap" "cubemaps/ocean/ocean.jpg",
    createShader "skyboxShader" "shaders/vertex_shaders/skybox_vert.glsl"
      "shaders/fragment_shaders/skybox_frag.glsl" ]

/-- Lines 189 to 211: the empty scene, its skybox and its three colour lookup tables. -/
def createSceneAndLuts : List Call :=
  [ .MakeScene "scene",
    .SceneCall "scene" "SetSkyboxTexture" [.ref "testCubemap"],
    .SceneCall "scene" "SetSkyboxShader" [.ref "skyboxShader"],
    .SceneCall "scene" "SetSkyboxRotation"
      [.call "glm::rotate" [.sym "MAT4_IDENTITY", .call "glm::half_pi<float>" [],
        vec3 1000 0 0]],
    createFromFile .Texture3D "lut" "luts/WARM.CUBE",
    createFromFile .Texture3D "lut1" "luts/COOL.CUBE",
    createFromFile .Texture3D "lut2" "luts/BANDW.CUBE",
    .SceneCall "scene" "SetColorLUT" [.ref "lut", .int 0],
    .SceneCall "scene" "SetColorLUT" [.ref "lut1", .int 1],
    .SceneCall "scene" "SetColorLUT" [.ref "lut2", .int 2] ]

/-- Lines 216 to 331: the thirteen materials, with the textures created inside their blocks. -/
def createMaterials : List Call :=
  [ createMaterial "boxMaterial" "basicShader",
    .AssetAssign "boxMaterial" "Name" (.str "Box"),
    materialSet "boxMaterial" "u_Material.Diffuse" (.ref "boxTexture"),
    materialSet "boxMaterial" "u_Material.Shininess" (.dec 100),
    createMaterial "carMaterial" "basicShader",
    .AssetAssign "carMaterial" "Name" (.str "Car"),
    materialSet "carMaterial" "u_Material.Diffuse" (.ref "carTex"),
    materialSet "carMaterial" "u_Material.Shininess" (.dec 100),
    createMaterial "carMaterial2" "specShader",
    .AssetAssign "carMaterial2" "Name" (.str "Car2"),
    materialSet "carMaterial2" "u_Material.Diffuse" (.ref "car2Tex"),
    materialSet "carMaterial2" "u_Material.Specular" (.ref "car2Tex"),
    createMaterial "buildMaterial" "basicShader",
    .AssetAssign "buildMaterial" "Name" (.str "Building"),
    materialSet "buildMaterial" "u_Material.Diffuse" (.ref "buildTex"),
    materialSet "buildMaterial" "u_Material.Shininess" (.dec 100),
    createMaterial "buildMaterial2" "basicShader",
    .AssetAssign "buildMaterial2" "Name" (.str "Building2"),
    materialSet "buildMaterial2" "u_Material.Diffuse" (.ref "buildTex2"),
    materialSet "buildMaterial2" "u_Material.Shininess" (.dec 100),
    createMaterial "buildMaterial3" "basicShader",
    .AssetAssign "buildMaterial3" "Name" (.str "Building3"),
    materialSet "buildMaterial3" "u_Material.Diffuse" (.ref "buildTex3"),
    materialSet "buildMaterial3" "u_Material.Shininess" (.dec 100),
    createMaterial "monkeyMaterial" "basicShader",
    .AssetAssign "monkeyMaterial" "Name" (.str "Light"),
    materialSet "monkeyMaterial" "u_Material.Diffuse" (.ref "LightTex"),
    materialSet "monkeyMaterial" "u_Material.Shininess" (.dec 500),
    createMaterial "testMaterial" "specShader",
    .AssetAssign "testMaterial" "Name" (.str "Box-Specular"),
    materialSet "testMaterial" "u_Material.Diffuse" (.ref "boxTexture"),
    materialSet "testMaterial" "u_Material.Specular" (.ref "boxSpec"),
    createMaterial "foliageMaterial" "foliageShader",
    .AssetAssign "foliageMaterial" "Name" (.str "Foliage Shader"),
    materialSet "foliageMaterial" "u_Material.Diffuse" (.ref "leafTex"),
    materialSet "foliageMaterial" "u_Material.Shininess" (.dec 100),
    materialSet "foliageMaterial" "u_Material.Threshold" (.dec 100),
    materialSet "foliageMaterial" "u_WindDirection" (vec3 1000 1000 0),
    materialSet "foliageMaterial" "u_WindStrength" (.dec 500),
    materialSet "foliageMaterial" "u_VerticalScale" (.dec 1000),
    materialSet "foliageMaterial" "u_WindSpeed" (.dec 1000),
    createMaterial "toonMaterial" "toonShader",
    .AssetAssign "toonMaterial" "Name" (.str "Toon"),
    materialSet "toonMaterial" "u_Material.Diffuse" (.ref "boxTexture"),
    materialSet "toonMaterial" "s_ToonTerm" (.ref "toonLut"),
    materialSet "toonMaterial" "u_Material.Shininess" (.dec 100),
    materialSet "toonMaterial" "u_Material.Steps" (.int 8),
    createMaterial "displacementTest" "displacementShader",
    createFromFile .Texture2D "displacementMap" "textures/displacement_map.png",
    createFromFile .Texture2D "normalMap" "textures/normal_map.png",
    createFromFile .Texture2D "diffuseMap" "textures/bricks_diffuse.png",
    .AssetAssign "displacementTest" "Name" (.str "Displacement Map"),
    materialSet "displacementTest" "u_Material.Diffuse" (.ref "diffuseMap"),
    materialSet "displacementTest" "s_Heightmap" (.ref "displacementMap"),
    materialSet "displacementTest" "s_NormalMap" (.ref "normalMap"),
    materialSet "displacementTest" "u_Material.Shininess" (.dec 500),
    materialSet "displacementTest" "u_Scale" (.dec 100),
    createMaterial "normalmapMat" "tangentSpaceMapping",
    createFromFile .Texture2D "normalMap" "textures/normal_map.png",
    createFromFile .Texture2D "diffuseMap" "textures/bricks_diffuse.png",
    .AssetAssign "normalmapMat" "Name" (.str "Tangent Space Normal Map"),
    materialSet "normalmapMat" "u_Material.Diffuse" (.ref "diffuseMap"),
    materialSet "normalmapMat" "s_NormalMap" (.ref "normalMap"),
    materialSet "normalmapMat" "u_Material.Shininess" (.dec 500),
    materialSet "normalmapMat" "u_Scale" (.dec 100),
    createMaterial "multiTextureMat" "multiTextureShader",
    createFromFile .Texture2D "sand" "textures/terrain/sand.png",
    createFromFile .Texture2D "grass" "textures/terrain/grass.png",
    .AssetAssign "multiTextureMat" "Name" (.str "Multitexturing"),
    materialSet "multiTextureMat" "u_Material.DiffuseA" (.ref "sand"),
    materialSet "multiTextureMat" "u_Material.DiffuseB" (.ref "grass"),
    materialSet "multiTextureMat" "u_Material.Shininess" (.dec 500),
    materialSet "multiTextureMat" "u_Scale" (.dec 100) ]

/-- Lines 334 to 352: the lights of the scene, then the plane and the sphere mesh. -/
def createLightsAndMeshes : List Call :=
  [ .LightsResize "scene" 3,
    .LightAssign "scene" 0 "Position" (vec3 0 1000 12000),
    .LightAssign "scene" 0 "Color" (vec3 1000 1000 1000),
    .LightAssign "scene" 0 "Range" (.dec 170000),
    .CreateAsset .MeshResource [] (some "planeMesh"),
    .AssetCall "planeMesh" "AddParam"
      [.call "MeshBuilderParam::CreatePlane"
        [.sym "ZERO", .sym "UNIT_Z", .sym "UNIT_X", .call "glm::vec2" [.dec 1000]]],
    .AssetCall "planeMesh" "GenerateMesh" [],
    .CreateAsset .MeshResource [] (some "sphere"),
    .AssetCall "sphere" "AddParam"
      [.call "MeshBuilderParam::CreateIcoSphere" [.sym "ZERO", .sym "ONE", .int 5]],
    .AssetCall "sphere" "GenerateMesh" [] ]

/-- Lines 355 to 361: the game object of the main camera. -/
def setUpCamera : List Call :=
  [ .MainCameraObject "scene" "camera",
    .ObjectCall "camera" "SetPostion" [.init [.dec 7640, .dec 23160, .dec 4630]],
    .ObjectCall "camera" "SetRotation" [.init [.dec 81696, .int 0, .dec (-143680)]],
    .ObjectCall "camera" "LookAt" [.call "glm::vec3" [.dec 0]],
    .AddComponent "camera" "SimpleCameraControl" none ]

/-- The block shared by the cars, the buildings and the traffic light: create the game object
`name`, bind it to `object`, place it, add a `JumpBehaviour`, then a `RenderComponent` bound
to `renderer` with its mesh and its material. -/
def placedObject (object name : String) (position rotation : Value)
    (renderer mesh material : String) : List Call :=
  [ .CreateGameObject "scene" name object,
    .ObjectCall object "SetPostion" [position],
    .ObjectCall object "SetRotation" [rotation],
    .AddComponent object "JumpBehaviour" none,
    .AddComponent object "RenderComponent" (some renderer),
    .ComponentCall renderer "SetMesh" [.ref mesh],
    .ComponentCall renderer "SetMaterial" [.ref material] ]

/-- The end of the block of a car: a `TriggerVolumeEnterBehaviour`, then a
`RotatingBehaviour` bound to `behaviour` with its rotation speed. -/
def spinning (object behaviour : String) : List Call :=
  [ .AddComponent object "TriggerVolumeEnterBehaviour" none,
    .AddComponent object "RotatingBehaviour" (some behaviour),
    .ComponentAssign behaviour "RotationSpeed" (vec3 0 0 32000) ]

/-- Lines 370 to 385: the ground plane with its tiled mesh, renderer and collider. -/
def createPlane : List Call :=
  [ .CreateGameObject "scene" "Plane" "plane",
    .CreateAsset .MeshResource [] (some "tiledMesh"),
    .AssetCall "tiledMesh" "AddParam"
      [.call "MeshBuilderParam::CreatePlane"
        [.sym "ZERO", .sym "UNIT_Z", .sym "UNIT_X", .call "glm::vec2" [.dec 100000],
          .call "glm::vec2" [.dec 20000]]],
    .AssetCall "tiledMesh" "GenerateMesh" [],
    .AddComponent "plane" "RenderComponent" (some "renderer"),
    .ComponentCall "renderer" "SetMesh" [.ref "tiledMesh"],
    .ComponentCall "renderer" "SetMaterial" [.ref "boxMaterial"],
    .AddComponent "plane" "RigidBody" (some "physics"),
    .ComponentCall "physics" "AddCollider" [.call "BoxCollider::Create" [vec3 50000 50000 1000]],
    .ComponentCall "physics->AddCollider()" "SetPosition" [.init [.int 0, .int 0, .int (-1)]] ]

/-- Lines 386 to 548: the two cars, the seven buildings, the traffic light and the empty
parent object. -/
def createObjects : List Call :=
  placedObject "car" "DRiftcar1" (vec3 (-6500) (-3000) (-1100)) (vec3 89000 0 0)
      "renderer1" "carMesh" "carMaterial" ++
    spinning "car" "behaviour1" ++
    placedObject "car2" "DRiftcar2" (vec3 (-6500) (-3000) (-1100)) (vec3 89000 0 38000)
      "renderer14" "carMesh2" "carMaterial2" ++
    spinning "car2" "behaviour1t" ++
    placedObject "Building" "Building" (vec3 (-2500) (-26490) (-1090)) (vec3 89000 0 (-94000))
      "renderer1" "buildingMesh" "buildMaterial" ++
    placedObject "Building1" "Building" (vec3 10180 (-26490) (-1090)) (vec3 89000 0 (-94000))
      "renderer11" "buildingMesh" "buildMaterial2" ++
    placedObject "Building2" "Building3" (vec3 17850 16980 (-1090)) (vec3 89000 0 2000)
      "renderer114" "buildingMesh" "buildMaterial" ++
    placedObject "Building4" "Building4" (vec3 13410 (-22340) (-1090)) (vec3 89000 0 2000)
      "renderer1144" "buildingMesh" "buildMaterial" ++
    placedObject "Building5" "Building5" (vec3 (-16340) (-26490) (-1090))
      (vec3 89000 0 (-94000)) "renderer118" "buildingMesh" "buildMaterial3" ++
    placedObject "Building6" "Building6" (vec3 (-24850) 12450 (-1090)) (vec3 89000 0 173000)
      "renderer1181" "buildingMesh" "buildMaterial3" ++
    placedObject "Building7" "Building7" (vec3 (-31380) (-26490) (-1090))
      (vec3 89000 0 (-94000)) "renderer1182" "buildingMesh" "buildMaterial2" ++
    placedObject "lights" "lights" (vec3 16910 (-15590) 700) (vec3 89000 (-1000) (-94000))
      "renderer112" "monkeyMesh" "monkeyMaterial" ++
    [ .CreateGameObject "scene" "Demo Parent" "demoBase" ]

/-- Lines 600 to 607: the particle system and the defaults of the GUI batcher. Lines 553 to
598 are inside a comment. -/
def createParticlesAndGui : List Call :=
  [ .CreateGameObject "scene" "Particles" "particles",
    .AddComponent "particles" "ParticleSystem" (some "particleManager"),
    .ComponentCall "particleManager" "AddEmitter"
      [.call "glm::vec3" [.dec 0], vec3 0 (-1000) 10000, .dec 10000,
        .call "glm::vec4" [.dec 0, .dec 1000, .dec 0, .dec 1000]],
    .CreateAsset .Texture2D [.str "textures/ui-sprite.png"] none,
    .GuiBatcherCall "SetDefaultTexture" [.temp],
    .GuiBatcherCall "SetDefaultBorderRadius" [.int 8] ]

/-- The function `DefaultSceneLayer::_CreateScene`, as the list of the calls it makes, given
the answer `filesystemExists path` of `std::filesystem::exists(path)`. -/
def _CreateScene (filesystemExists : String → Bool) : List Call :=
  let loadScene := false
  if loadScene && filesystemExists "scene.json" then
    [ .LoadSceneFile "scene.json" ]
  else
    createShaders ++ loadMeshesAndTextures ++ createSceneAndLuts ++ createMaterials ++
      createLightsAndMeshes ++ setUpCamera ++ createPlane ++ createObjects ++
      createParticlesAndGui ++
      [ .SaveManifest "scene-manifest.json",
        .SceneSave "scene" "scene.json",
        .LoadScene "scene" ]

/-- The function `DefaultSceneLayer::OnAppLoad`: it calls `_CreateScene`. -/
def OnAppLoad (filesystemExists : String → Bool) : List Call :=
  _CreateScene filesystemExists

/-! ## Kinds of calls -/

/-- Whether a call creates an asset through the resource manager. -/
def Call.isAssetCreation : Call → Bool
  | .CreateAsset _ _ _ => true
  | _ => false

/-- Whether a call sets up the lights of the scene: the resize or an assignment to a light. -/
def Call.isLightAssignment : Call → Bool
  | .LightsResize _ _ => true
  | .LightAssign _ _ _ _ => true
  | _ => false

/-- Whether a call is `scene->CreateGameObject(name)`. -/
def Call.isCreateGameObject : Call → Bool
  | .CreateGameObject _ _ _ => true
  | _ => false

/-- Whether a call changes the scene or something that belongs to it: a setter of the scene,
its lights, its game objects and their components. -/
def Call.isSceneMutation : Call → Bool
  | .SceneCall _ _ _ => true
  | .LightsResize _ _ => true
  | .LightAssign _ _ _ _ => true
  | .CreateGameObject _ _ _ => true
  | .ObjectCall _ _ _ => true
  | .AddComponent _ _ _ => true
  | .ComponentCall _ _ _ => true
  | .ComponentAssign _ _ _ => true
  | _ => false

/-- Whether a call populates the scene or the resource manager: an asset creation or a call
or assignment on an asset, or a change of the scene. -/
def Call.isPopulation : Call → Bool
  | .CreateAsset _ _ _ => true
  | .AssetCall _ _ _ => true
  | .AssetAssign _ _ _ => true
  | .MakeScene _ => true
  | .MainCameraObject _ _ => true
  | .GuiBatcherCall _ _ => true
  | c => c.isSceneMutation

/-- Whether a call serializes: `SaveManifest` or `scene->Save`. -/
def Call.isSave : Call → Bool
  | .SaveManifest _ => true
  | .SceneSave _ _ => true
  | _ => false

/-- Whether a call loads a scene into the application, from a file or from an object. -/
def Call.isLoad : Call → Bool
  | .LoadSceneFile _ => true
  | .LoadScene _ => true
  | _ => false

/-- Whether a call is `app.LoadScene(path)`, the load from a file. -/
def Call.isLoadSceneFile : Call → Bool
  | .LoadSceneFile _ => true
  | _ => false

/-- Whether a call is `std::make_shared<Scene>()`, the construction of a scene object. -/
def Call.isMakeScene : Call → Bool
  | .MakeScene _ => true
  | _ => false

/-- The number of calls of a trace that satisfy `p`. -/
def count (p : Call → Bool) (calls : List Call) : Nat := (calls.filter p).length

end DefaultSceneLayer

namespace DebugWindow

/-! ## Bit-level lemmas -/

theorem bitNot_lt (w x : Nat) : bitNot w x < 2 ^ w :=
  Nat.mod_lt _ (Nat.pos_pow_of_pos w (by decide))

theorem testBit_bitNot {w x : Nat} (hx : x < 2 ^ w) (i : Nat) :
    (bitNot w x).testBit i = (decide (i < w) && !x.testBit i) := by
  unfold bitNot
  have h : 2 ^ w - 1 - x = 2 ^ w - (x + 1) := by omega
  rw [h, Nat.mod_eq_of_lt (by omega), Nat.testBit_two_pow_sub_succ hx]

theorem testBit_of_lt_width {w m : Nat} (hm : m < 2 ^ w) {i : Nat} (hi : w ≤ i) :
    m.testBit i = false :=
  Nat.testBit_lt_two_pow (lt_of_lt_of_le hm (Nat.pow_le_pow_right (by decide) hi))

theorem testBit_assignBit {w F m : Nat} (hF : F < 2 ^ w) (hm : m < 2 ^ w) (t : Bool)
    (i : Nat) :
    (assignBit w F t m).testBit i = if F.testBit i then t else m.testBit i := by
  unfold assignBit RenderFlags.None
  rw [Nat.testBit_or, Nat.testBit_and, testBit_bitNot hF]
  by_cases hi : i < w
  · cases t <;> cases hFi : F.testBit i <;> simp [hi, hFi]
  · have h1 := testBit_of_lt_width hm (Nat.le_of_not_lt hi)
    have h2 := testBit_of_lt_width hF (Nat.le_of_not_lt hi)
    cases t <;> simp [hi, h1, h2]

theorem assignBit_lt {w F : Nat} (hF : F < 2 ^ w) (m : Nat) (t : Bool) :
    assignBit w F t m < 2 ^ w := by
  unfold assignBit RenderFlags.None
  apply Nat.or_lt_two_pow
  · exact Nat.and_lt_two_pow _ (bitNot_lt w F)
  · cases t
    · simp
    · simpa using hF

theorem toBool_and_two_pow (m i : Nat) : toBool (m &&& 2 ^ i) = m.testBit i := by
  unfold toBool
  rw [Nat.and_two_pow]
  cases h : m.testBit i <;> simp

theorem checkboxBlock_eq (E : RenderFlagsDecl) (b : Box) (cb : Checkbox) (l : Locals) :
    checkboxBlock E b cb l =
      { flags := blockFlags E b cb l.flags
        changed := (cb (shown E b l.flags)).changed || l.changed
        trace := l.trace ++ [Event.Checkbox b (shown E b l.flags)] } := by
  simp only [checkboxBlock, blockFlags, shown]
  split_ifs with h <;> simp [h]

theorem blockFlags_eq (E : RenderFlagsDecl) (b : Box) (cb : Checkbox) (m : Nat) :
    blockFlags E b cb m =
      if (cb (shown E b m)).changed then assignBit E.width (b.flag E) (cb (shown E b m)).value m
      else m := by
  simp only [checkboxBlock, blockFlags, shown]
  split_ifs with h <;> rfl

theorem checkboxes_eq (E : RenderFlagsDecl) (ui : Frame) (m : Nat) (tr : List Event) :
    checkboxes E ui m tr =
      { flags := blockFlags E Box.BW ui.bw (blockFlags E Box.Cold ui.cold
          (blockFlags E Box.Warm ui.warm m))
        changed := (ui.bw (shown E Box.BW (blockFlags E Box.Cold ui.cold
            (blockFlags E Box.Warm ui.warm m)))).changed ||
          ((ui.cold (shown E Box.Cold (blockFlags E Box.Warm ui.warm m))).changed ||
            (ui.warm (shown E Box.Warm m)).changed)
        trace := tr ++ [Event.Checkbox Box.Warm (shown E Box.Warm m),
          Event.Checkbox Box.Cold (shown E Box.Cold (blockFlags E Box.Warm ui.warm m)),
          Event.Checkbox Box.BW (shown E Box.BW (blockFlags E Box.Cold ui.cold
            (blockFlags E Box.Warm ui.warm m)))] } := by
  simp only [checkboxes, checkboxBlock_eq, Bool.or_false, List.append_assoc,
    List.singleton_append, List.cons_append, List.nil_append]

theorem blockFlags_of_not_changed {E : RenderFlagsDecl} {b : Box} {cb : Checkbox} {m : Nat}
    (h : (cb (shown E b m)).changed = false) : blockFlags E b cb m = m := by
  simp [blockFlags_eq, h]

theorem RenderMenuBar_trace (E : RenderFlagsDecl) (ui : Frame) (app : App) :
    (RenderMenuBar E ui app).trace = app.trace ++ frameTrace E ui app := by
  simp only [frameTrace, RenderMenuBar, physicsBlock, checkboxes_eq]
  split_ifs <;> simp

theorem flags_of_not_changed {E : RenderFlagsDecl} {ui : Frame} {m : Nat}
    (h : ((ui.bw (shown E Box.BW (blockFlags E Box.Cold ui.cold
            (blockFlags E Box.Warm ui.warm m)))).changed ||
          ((ui.cold (shown E Box.Cold (blockFlags E Box.Warm ui.warm m))).changed ||
            (ui.warm (shown E Box.Warm m)).changed)) = false) :
    blockFlags E Box.BW ui.bw (blockFlags E Box.Cold ui.cold
      (blockFlags E Box.Warm ui.warm m)) = m := by
  simp only [Bool.or_eq_false_iff] at h
  obtain ⟨h3, h2, h1⟩ := h
  have e1 := blockFlags_of_not_changed h1
  rw [e1] at h2 h3 ⊢
  have e2 := blockFlags_of_not_changed h2
  rw [e2] at h3 ⊢
  exact blockFlags_of_not_changed h3

theorem RenderMenuBar_renderFlags (E : RenderFlagsDecl) (ui : Frame) (app : App) :
    (RenderMenuBar E ui app).renderFlags = (render E ui app.renderFlags).2 := by
  simp only [render, RenderMenuBar, physicsBlock, checkboxes_eq]
  split_ifs with h1 h2 h2
  · rfl
  · exact (flags_of_not_changed (by simpa using h2)).symm
  · rfl
  · exact (flags_of_not_changed (by simpa using h2)).symm

/-! ## Single-bit flags -/

theorem RenderFlagsDecl.SingleBits.flag_eq {E : RenderFlagsDecl} {i j k : Nat}
    (hE : E.SingleBits i j k) (b : Box) : b.flag E = 2 ^ b.bit i j k := by
  obtain ⟨h1, h2, h3, -⟩ := hE
  cases b
  · exact h1
  · exact h2
  · exact h3

theorem RenderFlagsDecl.SingleBits.bit_lt {E : RenderFlagsDecl} {i j k : Nat}
    (hE : E.SingleBits i j k) (b : Box) : b.bit i j k < E.width := by
  obtain ⟨-, -, -, h1, h2, h3, -⟩ := hE
  cases b
  · exact h1
  · exact h2
  · exact h3

theorem RenderFlagsDecl.SingleBits.flag_lt {E : RenderFlagsDecl} {i j k : Nat}
    (hE : E.SingleBits i j k) (b : Box) : b.flag E < 2 ^ E.width := by
  rw [hE.flag_eq b]
  exact Nat.pow_lt_pow_right (by decide) (hE.bit_lt b)

theorem RenderFlagsDecl.SingleBits.inRange {E : RenderFlagsDecl} {i j k : Nat}
    (hE : E.SingleBits i j k) : E.InRange :=
  ⟨hE.flag_lt Box.Warm, hE.flag_lt Box.Cold, hE.flag_lt Box.BW⟩

theorem RenderFlagsDecl.InRange.flag_fits {E : RenderFlagsDecl} (hE : E.InRange) (b : Box) :
    b.flag E < 2 ^ E.width := by
  obtain ⟨h1, h2, h3⟩ := hE
  cases b
  · exact h1
  · exact h2
  · exact h3

theorem blockFlags_lt {E : RenderFlagsDecl} {b : Box} (hF : b.flag E < 2 ^ E.width)
    (cb : Checkbox) {m : Nat} (hm : m < 2 ^ E.width) : blockFlags E b cb m < 2 ^ E.width := by
  rw [blockFlags_eq]
  split_ifs
  · exact assignBit_lt hF _ _
  · exact hm

/-- A block whose flag is the single bit `p` shows bit `p` of the mask it is entered with. -/
theorem shown_of_bit {E : RenderFlagsDecl} {b : Box} {p : Nat} (hF : b.flag E = 2 ^ p)
    (m : Nat) : shown E b m = m.testBit p := by
  rw [shown, hF, toBool_and_two_pow]

/-- A block whose flag is the single bit `p` stores the checkbox's value in bit `p` when the
checkbox reports a change, and leaves every other bit as it was. -/
theorem testBit_blockFlags {E : RenderFlagsDecl} {b : Box} {p : Nat} (hF : b.flag E = 2 ^ p)
    (hp : p < E.width) (cb : Checkbox) {m : Nat} (hm : m < 2 ^ E.width) (n : Nat) :
    (blockFlags E b cb m).testBit n =
      if n = p ∧ (cb (m.testBit p)).changed = true then (cb (m.testBit p)).value
      else m.testBit n := by
  have hlt : b.flag E < 2 ^ E.width := by
    rw [hF]
    exact Nat.pow_lt_pow_right (by decide) hp
  rw [blockFlags_eq, shown_of_bit hF]
  by_cases hc : (cb (m.testBit p)).changed = true
  · rw [if_pos hc, testBit_assignBit hlt hm, hF, Nat.testBit_two_pow]
    by_cases hn : n = p
    · simp [hn, hc]
    · have hn2 : ¬ p = n := fun h => hn h.symm
      simp [hn, hn2]
  · simp [hc]

/-- A block never touches a bit outside its flag, whatever the value of the flag. -/
theorem testBit_blockFlags_outside {E : RenderFlagsDecl} {b : Box}
    (hF : b.flag E < 2 ^ E.width) (cb : Checkbox) {m : Nat} (hm : m < 2 ^ E.width) {n : Nat}
    (hn : (b.flag E).testBit n = false) : (blockFlags E b cb m).testBit n = m.testBit n := by
  rw [blockFlags_eq]
  split_ifs
  · rw [testBit_assignBit hF hm, hn]
    simp
  · rfl

/-- A clicked block whose flag is the single bit `p` flips bit `p`. -/
theorem blockFlags_ofToggle {E : RenderFlagsDecl} {b : Box} {p : Nat} (hF : b.flag E = 2 ^ p)
    (hp : p < E.width) (t : Bool) {m : Nat} (hm : m < 2 ^ E.width) :
    blockFlags E b (Checkbox.ofToggle t) m = m ^^^ (if t then 2 ^ p else 0) := by
  apply Nat.eq_of_testBit_eq
  intro n
  rw [testBit_blockFlags hF hp _ hm, Nat.testBit_xor]
  cases t
  · simp [Checkbox.ofToggle, Checkbox.idle]
  · by_cases hn : n = p
    · simp [Checkbox.ofToggle, Checkbox.toggled, hn, Nat.testBit_two_pow_self]
    · have hn2 : p ≠ n := fun h => hn h.symm
      simp [Checkbox.ofToggle, Checkbox.toggled, hn, Nat.testBit_two_pow_of_ne hn2]

theorem testBit_xor_bit (m p n : Nat) (t : Bool) :
    (m ^^^ (if t then 2 ^ p else 0)).testBit n =
      if n = p ∧ t = true then !m.testBit n else m.testBit n := by
  rw [Nat.testBit_xor]
  cases t
  · simp
  · by_cases hn : n = p
    · simp [hn, Nat.testBit_two_pow_self]
    · have hn2 : p ≠ n := fun h => hn h.symm
      simp [hn, Nat.testBit_two_pow_of_ne hn2]

theorem xor_bit_lt {w p m : Nat} (hp : p < w) (t : Bool) (hm : m < 2 ^ w) :
    m ^^^ (if t then 2 ^ p else 0) < 2 ^ w := by
  apply Nat.xor_lt_two_pow hm
  cases t
  · simp
  · simpa using Nat.pow_lt_pow_right (by decide) hp

/-- With single-bit flags, a frame of clicks flips exactly the clicked bits. -/
theorem render_toggleFrame {E : RenderFlagsDecl} {i j k : Nat} (hE : E.SingleBits i j k)
    (g : Nat → Bool × Nat) (tw tc tb : Bool) {m : Nat} (hm : m < 2 ^ E.width) :
    render E (toggleFrame g tw tc tb) m =
      (tw || tc || tb,
        ((m ^^^ (if tw then 2 ^ i else 0)) ^^^ (if tc then 2 ^ j else 0)) ^^^
          (if tb then 2 ^ k else 0)) := by
  have h1 := blockFlags_ofToggle (hE.flag_eq Box.Warm) (hE.bit_lt Box.Warm) tw hm
  have l1 := xor_bit_lt (hE.bit_lt Box.Warm) tw hm
  have h2 := blockFlags_ofToggle (hE.flag_eq Box.Cold) (hE.bit_lt Box.Cold) tc l1
  have l2 := xor_bit_lt (hE.bit_lt Box.Cold) tc l1
  have h3 := blockFlags_ofToggle (hE.flag_eq Box.BW) (hE.bit_lt Box.BW) tb l2
  simp only [Box.bit] at h1 h2 h3
  simp only [render, checkboxes_eq, toggleFrame, h1, h2, h3]
  cases tw <;> cases tc <;> cases tb <;> simp [Checkbox.ofToggle, Checkbox.toggled, Checkbox.idle]

/-- The calls made by the physics part of a frame. -/
theorem physicsBlock_trace (ui : Frame) (app : App) :
    (physicsBlock ui app).trace =
      app.trace ++ (Event.GetPhysicsDebugDrawMode :: Event.DrawModeGui app.physicsDebugDrawMode ::
        if (ui.drawModeGui app.physicsDebugDrawMode).1 then
          [Event.SetPhysicsDebugDrawMode (ui.drawModeGui app.physicsDebugDrawMode).2]
        else []) := by
  simp only [physicsBlock]
  split_ifs <;> simp

theorem physicsBlock_renderFlags (ui : Frame) (app : App) :
    (physicsBlock ui app).renderFlags = app.renderFlags := by
  simp only [physicsBlock]
  split_ifs <;> rfl

/-- The calls of one frame, in program order: the physics part, the separator, the read of the
mask, the three checkboxes and, when `changed` is set, the single write-back. -/
theorem frameTrace_eq (E : RenderFlagsDecl) (ui : Frame) (app : App) :
    frameTrace E ui app =
      (physicsBlock ui { app with trace := [] }).trace ++
        [Event.Separator, Event.GetRenderFlags,
          Event.Checkbox Box.Warm (shown E Box.Warm app.renderFlags),
          Event.Checkbox Box.Cold
            (shown E Box.Cold (blockFlags E Box.Warm ui.warm app.renderFlags)),
          Event.Checkbox Box.BW (shown E Box.BW (blockFlags E Box.Cold ui.cold
            (blockFlags E Box.Warm ui.warm app.renderFlags)))] ++
        (if (render E ui app.renderFlags).1 then
          [Event.SetRenderFlags (render E ui app.renderFlags).2]
        else []) := by
  simp only [frameTrace, RenderMenuBar, render, checkboxes_eq, physicsBlock_renderFlags]
  split_ifs <;> simp

theorem setRenderFlagsCalls_append (xs ys : List Event) :
    setRenderFlagsCalls (xs ++ ys) = setRenderFlagsCalls xs ++ setRenderFlagsCalls ys := by
  induction xs with
  | nil => rfl
  | cons x xs ih => cases x <;> simp [setRenderFlagsCalls, ih]

theorem setRenderFlagsCalls_physicsBlock (ui : Frame) (app : App) :
    setRenderFlagsCalls (physicsBlock ui { app with trace := [] }).trace = [] := by
  rw [physicsBlock_trace]
  split_ifs <;> simp [setRenderFlagsCalls]

/-- The masks written back in one frame: the final mask, once, when `changed` is set. -/
theorem setRenderFlagsCalls_frameTrace (E : RenderFlagsDecl) (ui : Frame) (app : App) :
    setRenderFlagsCalls (frameTrace E ui app) =
      if (render E ui app.renderFlags).1 then [(render E ui app.renderFlags).2] else [] := by
  rw [frameTrace_eq, setRenderFlagsCalls_append, setRenderFlagsCalls_append,
    setRenderFlagsCalls_physicsBlock]
  split_ifs <;> simp [setRenderFlagsCalls]

theorem sampleDecl_singleBits : sampleDecl.SingleBits 0 1 2 := by
  simp [RenderFlagsDecl.SingleBits, sampleDecl]

/-- With single-bit flags, a frame in which only `b` is clicked flips the bit of `b`. -/
theorem toggle_flips {E : RenderFlagsDecl} {i j k : Nat} (hE : E.SingleBits i j k) (app : App)
    (hm : app.renderFlags < 2 ^ E.width) (g : Nat → Bool × Nat) (b : Box) (n : Nat) :
    (RenderMenuBar E (onlyToggle g b) app).renderFlags.testBit n =
      if n = b.bit i j k then !app.renderFlags.testBit n else app.renderFlags.testBit n := by
  rw [RenderMenuBar_renderFlags, onlyToggle, render_toggleFrame hE g _ _ _ hm]
  simp only [testBit_xor_bit]
  cases b <;> simp [Box.bit]

/-- The masks written back in a frame of clicks: none without a click, else the final one. -/
theorem render_toggleFrame_changed (E : RenderFlagsDecl) (g : Nat → Bool × Nat)
    (tw tc tb : Bool) (m : Nat) : (render E (toggleFrame g tw tc tb) m).1 = (tw || tc || tb) := by
  simp only [render, checkboxes_eq, toggleFrame]
  cases tw <;> cases tc <;> cases tb <;> simp [Checkbox.ofToggle, Checkbox.toggled, Checkbox.idle]

theorem checkboxes_eq_checkboxesIn (E : RenderFlagsDecl) (ui : Frame) (m : Nat)
    (tr : List Event) :
    checkboxes E ui m tr =
      checkboxesIn E ui [Box.Warm, Box.Cold, Box.BW]
        { flags := m, changed := false, trace := tr } :=
  rfl

theorem toggleFrame_box (g : Nat → Bool × Nat) (tw tc tb : Bool) (b : Box) :
    (toggleFrame g tw tc tb).box b = Checkbox.ofToggle (b.toggle tw tc tb) := by
  cases b <;> rfl

/-- With single-bit flags, blocks of clicks run in any order, over any list of boxes, flip the
bit of each clicked box once for each of its occurrences in the list. -/
theorem checkboxesIn_toggleFrame_flags {E : RenderFlagsDecl} {i j k : Nat}
    (hE : E.SingleBits i j k) (g : Nat → Bool × Nat) (tw tc tb : Bool) (order : List Box)
    (l : Locals) (hl : l.flags < 2 ^ E.width) :
    (checkboxesIn E (toggleFrame g tw tc tb) order l).flags =
      order.foldl (fun x b => x ^^^ (if b.toggle tw tc tb then 2 ^ b.bit i j k else 0))
        l.flags := by
  induction order generalizing l with
  | nil => rfl
  | cons b rest ih =>
    have hb := blockFlags_ofToggle (hE.flag_eq b) (hE.bit_lt b) (b.toggle tw tc tb) hl
    have hlt := xor_bit_lt (hE.bit_lt b) (b.toggle tw tc tb) hl
    simp only [checkboxesIn, List.foldl_cons] at ih ⊢
    rw [ih]
    · rw [checkboxBlock_eq, toggleFrame_box]
      simp only [hb]
    · rw [checkboxBlock_eq, toggleFrame_box]
      simpa only [hb] using hlt

theorem checkboxShown_append (b : Box) (xs ys : List Event) :
    checkboxShown b (xs ++ ys) = checkboxShown b xs ++ checkboxShown b ys := by
  induction xs with
  | nil => rfl
  | cons x xs ih =>
    cases x with
    | Checkbox c t =>
      simp only [List.cons_append, checkboxShown]
      split_ifs <;> simp [ih]
    | _ => simpa only [List.cons_append, checkboxShown] using ih

theorem checkboxShown_physicsBlock (b : Box) (ui : Frame) (app : App) :
    checkboxShown b (physicsBlock ui { app with trace := [] }).trace = [] := by
  rw [physicsBlock_trace]
  split_ifs <;> simp [checkboxShown]

theorem overlapDecl_inRange : overlapDecl.InRange := by
  simp [RenderFlagsDecl.InRange, overlapDecl]

/-- A block whose checkbox is clicked exactly when `t` is true computes `clickFlags`. -/
theorem blockFlags_ofToggle_eq_clickFlags (E : RenderFlagsDecl) (b : Box) (t : Bool)
    (m : Nat) : blockFlags E b (Checkbox.ofToggle t) m = clickFlags E b t m := by
  rw [blockFlags_eq]
  cases t <;> simp [Checkbox.ofToggle, Checkbox.toggled, Checkbox.idle, clickFlags, assignBit,
    shown]

/-- The final `flags` of a frame of clicks, block after block. -/
theorem checkboxes_toggleFrame_flags (E : RenderFlagsDecl) (g : Nat → Bool × Nat)
    (tw tc tb : Bool) (m : Nat) (tr : List Event) :
    (checkboxes E (toggleFrame g tw tc tb) m tr).flags =
      clickFlags E Box.BW tb (clickFlags E Box.Cold tc (clickFlags E Box.Warm tw m)) := by
  rw [checkboxes_eq]
  simp only [toggleFrame, blockFlags_ofToggle_eq_clickFlags]

/-- With single-bit flags, the final `flags` of a frame of clicks is the initial mask XOR the
OR of the flags of the clicked checkboxes. -/
theorem checkboxes_toggleFrame_xor {E : RenderFlagsDecl} {i j k : Nat}
    (hE : E.SingleBits i j k) (g : Nat → Bool × Nat) (tw tc tb : Bool) {m : Nat}
    (hm : m < 2 ^ E.width) (tr : List Event) :
    (checkboxes E (toggleFrame g tw tc tb) m tr).flags =
      m ^^^ ((if tw then E.EnableColorCorrection else 0) |||
        (if tc then E.EnableColdCorrection else 0) |||
        (if tb then E.EnableBWCorrection else 0)) := by
  obtain ⟨e1, e2, e3, -, -, -, hij, hik, hjk⟩ := id hE
  have hr : (checkboxes E (toggleFrame g tw tc tb) m tr).flags =
      (render E (toggleFrame g tw tc tb) m).2 := by
    rw [checkboxes_eq]
    simp only [render, checkboxes_eq]
  rw [hr, render_toggleFrame hE g _ _ _ hm]
  apply Nat.eq_of_testBit_eq
  intro n
  have b1 : ∀ (t : Bool) (p : Nat),
      (if t then 2 ^ p else 0).testBit n = (decide (n = p) && t) := by
    intro t p
    cases t
    · simp
    · simp [Nat.testBit_two_pow, eq_comm]
  simp only [Nat.testBit_xor, Nat.testBit_or, e1, e2, e3, b1]
  by_cases h1 : n = i
  · subst h1
    cases tw <;> cases tc <;> cases tb <;> simp [hij, hik]
  · by_cases h2 : n = j
    · subst h2
      cases tw <;> cases tc <;> cases tb <;> simp [h1, hjk]
    · by_cases h3 : n = k
      · subst h3
        cases tw <;> cases tc <;> cases tb <;> simp [h1, h2]
      · cases tw <;> cases tc <;> cases tb <;> simp [h1, h2, h3]

/-! ## Claims -/

/-- C1. With the three feature flags distinct single bits (`i`, `j`, `k`), for every initial
mask and each of the three checkboxes `b`: when only `b` is clicked in the frame, the mask of
the render layer after `RenderMenuBar` has the bit of `b` flipped and every other bit equal to
the corresponding bit of the initial mask. -/
theorem toggle_in_isolation_changes_only_that_bit (E : RenderFlagsDecl) (i j k : Nat)
    (hE : E.SingleBits i j k) (app : App) (hm : app.renderFlags < 2 ^ E.width)
    (g : Nat → Bool × Nat) (b : Box) (n : Nat) :
    (RenderMenuBar E (onlyToggle g b) app).renderFlags.testBit n =
      if n = b.bit i j k then !app.renderFlags.testBit n else app.renderFlags.testBit n := by
  rw [RenderMenuBar_renderFlags, onlyToggle, render_toggleFrame hE g _ _ _ hm]
  simp only [testBit_xor_bit]
  cases b <;> simp [Box.bit]

/-- Witness of C1 on the sample declaration: from the mask 5, clicking only the cold
checkbox. -/
theorem toggle_in_isolation_changes_only_that_bit_witness :
    sampleDecl.SingleBits 0 1 2 ∧
      (sampleApp 5).renderFlags < 2 ^ sampleDecl.width ∧
      (RenderMenuBar sampleDecl (onlyToggle idleGui Box.Cold)
        (sampleApp 5)).renderFlags.testBit 1 =
        if 1 = Box.Cold.bit 0 1 2 then
          !(sampleApp 5).renderFlags.testBit 1
        else (sampleApp 5).renderFlags.testBit 1 :=
  ⟨sampleDecl_singleBits, by decide,
    toggle_in_isolation_changes_only_that_bit sampleDecl 0 1 2 sampleDecl_singleBits
      (sampleApp 5) (by decide) idleGui Box.Cold 1⟩

/-- C2. With the three feature flags distinct single bits, for every mask and each checkbox
block: when the checkbox reports a change with new boolean `v`, the block assigns
`(flags & ~F) | (v ? F : None)`; a click on an unchecked feature yields `flags | F` and a click
on a checked feature yields `flags & ~F`. From the mask 0, clicking warm correction yields
exactly the warm bit; from the mask warm|cold, clicking cold yields exactly the warm bit. -/
theorem changed_checkbox_recomputes_mask (E : RenderFlagsDecl) (i j k : Nat)
    (hE : E.SingleBits i j k) :
    (∀ (b : Box) (cb : Checkbox) (l : Locals),
        (cb (toBool (l.flags &&& b.flag E))).changed = true →
        (checkboxBlock E b cb l).flags =
            (l.flags &&& bitNot E.width (b.flag E)) |||
              (if (cb (toBool (l.flags &&& b.flag E))).value then b.flag E
                else RenderFlags.None) ∧
          (checkboxBlock E b cb l).changed = true) ∧
      (∀ (b : Box) (l : Locals), l.flags < 2 ^ E.width →
        toBool (l.flags &&& b.flag E) = false →
        (checkboxBlock E b Checkbox.toggled l).flags = l.flags ||| b.flag E) ∧
      (∀ (b : Box) (l : Locals), l.flags < 2 ^ E.width →
        toBool (l.flags &&& b.flag E) = true →
        (checkboxBlock E b Checkbox.toggled l).flags = l.flags &&& bitNot E.width (b.flag E)) ∧
      (∀ (g : Nat → Bool × Nat) (q : Nat) (tr : List Event),
        (RenderMenuBar E (onlyToggle g Box.Warm)
          { renderFlags := 0, physicsDebugDrawMode := q, trace := tr }).renderFlags =
          E.EnableColorCorrection) ∧
      (∀ (g : Nat → Bool × Nat) (q : Nat) (tr : List Event),
        (RenderMenuBar E (onlyToggle g Box.Cold)
          { renderFlags := E.EnableColorCorrection ||| E.EnableColdCorrection,
            physicsDebugDrawMode := q, trace := tr }).renderFlags =
          E.EnableColorCorrection) := by
  refine ⟨?_, ?_, ?_, ?_, ?_⟩
  · intro b cb l h
    have h2 : (cb (shown E b l.flags)).changed = true := h
    rw [checkboxBlock_eq, blockFlags_eq]
    simp only [if_pos h2, h2, Bool.true_or, and_true]
    rfl
  · intro b l hl hs
    have h2 : shown E b l.flags = false := hs
    rw [checkboxBlock_eq, blockFlags_eq]
    simp only [h2, Checkbox.toggled, if_true, Bool.not_false]
    apply Nat.eq_of_testBit_eq
    intro n
    rw [testBit_assignBit (hE.flag_lt b) hl]
    cases hF : (b.flag E).testBit n <;> simp [hF]
  · intro b l hl hs
    have h2 : shown E b l.flags = true := hs
    rw [checkboxBlock_eq, blockFlags_eq]
    simp only [h2, Checkbox.toggled, if_true, Bool.not_true]
    simp [assignBit, RenderFlags.None]
  · intro g q tr
    apply Nat.eq_of_testBit_eq
    intro n
    rw [toggle_flips hE _ (Nat.pos_pow_of_pos _ (by decide)) g Box.Warm n, hE.1]
    simp [Box.bit, Nat.testBit_two_pow, eq_comm]
  · intro g q tr
    have hlt : E.EnableColorCorrection ||| E.EnableColdCorrection < 2 ^ E.width :=
      Nat.or_lt_two_pow (hE.flag_lt Box.Warm) (hE.flag_lt Box.Cold)
    apply Nat.eq_of_testBit_eq
    intro n
    rw [toggle_flips hE _ hlt g Box.Cold n]
    simp only [Box.bit, hE.1, hE.2.1, Nat.testBit_or, Nat.testBit_two_pow]
    have hij : i ≠ j := hE.2.2.2.2.2.2.1
    by_cases hn : n = j
    · subst hn
      simp [hij]
    · have hn2 : ¬ j = n := fun h => hn h.symm
      simp [hn, hn2]

/-- Witness of C2 on the sample declaration: the two scenarios, from the mask 0 and from the
mask 3 (warm and cold). -/
theorem changed_checkbox_recomputes_mask_witness :
    sampleDecl.SingleBits 0 1 2 ∧
      (RenderMenuBar sampleDecl (onlyToggle idleGui Box.Warm)
        (sampleApp 0)).renderFlags = 1 ∧
      (RenderMenuBar sampleDecl (onlyToggle idleGui Box.Cold)
        (sampleApp 3)).renderFlags = 1 :=
  ⟨sampleDecl_singleBits,
    (changed_checkbox_recomputes_mask sampleDecl 0 1 2 sampleDecl_singleBits).2.2.2.1
      idleGui 0 [],
    (changed_checkbox_recomputes_mask sampleDecl 0 1 2 sampleDecl_singleBits).2.2.2.2
      idleGui 0 []⟩

/-- C3. For every mask of the underlying type and each feature flag `F` that is a single bit:
extracting the bit as a boolean, `temp = (mask & F) != 0`, and re-combining it without change,
`(mask & ~F) | (temp ? F : None)`, yields the original mask; so a checkbox block whose
checkbox reports a change but leaves `temp` as it was leaves `flags` as it was. -/
theorem extract_then_recombine_is_identity (E : RenderFlagsDecl) (b : Box) (p : Nat)
    (hF : b.flag E = 2 ^ p) (hp : p < E.width) (l : Locals) (hm : l.flags < 2 ^ E.width) :
    assignBit E.width (b.flag E) (toBool (l.flags &&& b.flag E)) l.flags = l.flags ∧
      (checkboxBlock E b (fun v => { changed := true, value := v }) l).flags = l.flags := by
  have hlt : b.flag E < 2 ^ E.width := by
    rw [hF]
    exact Nat.pow_lt_pow_right (by decide) hp
  have key :
      assignBit E.width (b.flag E) (toBool (l.flags &&& b.flag E)) l.flags = l.flags := by
    apply Nat.eq_of_testBit_eq
    intro n
    rw [testBit_assignBit hlt hm, hF, toBool_and_two_pow, Nat.testBit_two_pow]
    by_cases hn : p = n
    · simp [hn]
    · simp [hn]
  refine ⟨key, ?_⟩
  rw [checkboxBlock_eq, blockFlags_eq]
  exact key

/-- Witness of C3 on the sample declaration: the cold bit of the mask 6. -/
theorem extract_then_recombine_is_identity_witness :
    Box.Cold.flag sampleDecl = 2 ^ 1 ∧ 1 < sampleDecl.width ∧
      ({ flags := 6, changed := false, trace := [] } : Locals).flags < 2 ^ sampleDecl.width ∧
      assignBit sampleDecl.width (Box.Cold.flag sampleDecl)
        (toBool (({ flags := 6, changed := false, trace := [] } : Locals).flags &&&
          Box.Cold.flag sampleDecl))
        ({ flags := 6, changed := false, trace := [] } : Locals).flags = 6 ∧
      (checkboxBlock sampleDecl Box.Cold (fun v => { changed := true, value := v })
        { flags := 6, changed := false, trace := [] }).flags = 6 :=
  ⟨rfl, by decide, by decide,
    extract_then_recombine_is_identity sampleDecl Box.Cold 1 rfl (by decide)
      { flags := 6, changed := false, trace := [] } (by decide)⟩

/-- C4. For every initial mask: when none of the three checkboxes reports a change in a frame,
`changed` is false after the three blocks, `RenderMenuBar` makes no call of `SetRenderFlags`,
and the mask of the render layer is the one it had before the frame. -/
theorem no_toggle_no_write_back (E : RenderFlagsDecl) (ui : Frame) (app : App)
    (hw : ∀ v, (ui.warm v).changed = false) (hc : ∀ v, (ui.cold v).changed = false)
    (hb : ∀ v, (ui.bw v).changed = false) :
    (render E ui app.renderFlags).1 = false ∧
      (render E ui app.renderFlags).2 = app.renderFlags ∧
      (RenderMenuBar E ui app).trace = app.trace ++ frameTrace E ui app ∧
      setRenderFlagsCalls (frameTrace E ui app) = [] ∧
      (∀ m, Event.SetRenderFlags m ∉ frameTrace E ui app) ∧
      (RenderMenuBar E ui app).renderFlags = app.renderFlags := by
  have h1 : (render E ui app.renderFlags).1 = false := by
    simp [render, checkboxes_eq, hw, hc, hb]
  have h2 : (render E ui app.renderFlags).2 = app.renderFlags := by
    simp [render, checkboxes_eq, blockFlags_eq, hw, hc, hb]
  refine ⟨h1, h2, RenderMenuBar_trace E ui app, ?_, ?_, ?_⟩
  · rw [setRenderFlagsCalls_frameTrace, h1]
    simp
  · intro m hmem
    rw [frameTrace_eq, h1, physicsBlock_trace] at hmem
    simp at hmem
  · rw [RenderMenuBar_renderFlags, h2]

/-- Witness of C4 on the sample declaration: the mask 7 (warm, cold and black-and-white) with
no checkbox clicked. -/
theorem no_toggle_no_write_back_witness :
    (∀ v, ((toggleFrame idleGui false false false).warm v).changed = false) ∧
      (∀ v, ((toggleFrame idleGui false false false).cold v).changed = false) ∧
      (∀ v, ((toggleFrame idleGui false false false).bw v).changed = false) ∧
      (render sampleDecl (toggleFrame idleGui false false false) 7).1 = false ∧
      setRenderFlagsCalls (frameTrace sampleDecl (toggleFrame idleGui false false false)
        (sampleApp 7)) = [] ∧
      (RenderMenuBar sampleDecl (toggleFrame idleGui false false false)
        (sampleApp 7)).renderFlags = 7 :=
  have h := no_toggle_no_write_back sampleDecl (toggleFrame idleGui false false false)
    (sampleApp 7)
    (fun _ => rfl) (fun _ => rfl) (fun _ => rfl)
  ⟨fun _ => rfl, fun _ => rfl, fun _ => rfl, h.1, h.2.2.2.1, h.2.2.2.2.2⟩

/-- C5. For every initial mask and every non-empty set of checkboxes clicked in one frame:
the frame's calls end with the three checkboxes, in program order, followed by one call of
`SetRenderFlags`; that call is the only one of the frame, and its argument is the value of
`flags` after the three blocks, which is the mask the render layer holds afterwards. That
value is the initial mask with the assignment of every clicked checkbox applied, in the order
warm, cold, black-and-white, never the mask after the first or the second block only; with
the flags distinct single bits it is the initial mask XOR the OR of the flags of all the
clicked checkboxes, so the bit of each clicked checkbox is flipped in it and no other bit
is. -/
theorem write_back_once_with_final_mask (E : RenderFlagsDecl) (g : Nat → Bool × Nat)
    (tw tc tb : Bool) (app : App) (h : (tw || tc || tb) = true) :
    setRenderFlagsCalls (frameTrace E (toggleFrame g tw tc tb) app) =
        [(checkboxes E (toggleFrame g tw tc tb) app.renderFlags []).flags] ∧
      (∃ pre t1 t2 t3,
        frameTrace E (toggleFrame g tw tc tb) app =
          pre ++ [Event.Checkbox Box.Warm t1, Event.Checkbox Box.Cold t2,
            Event.Checkbox Box.BW t3,
            Event.SetRenderFlags
              (checkboxes E (toggleFrame g tw tc tb) app.renderFlags []).flags] ∧
        setRenderFlagsCalls pre = [] ∧
        ∀ b, checkboxShown b pre = []) ∧
      (RenderMenuBar E (toggleFrame g tw tc tb) app).trace =
        app.trace ++ frameTrace E (toggleFrame g tw tc tb) app ∧
      (RenderMenuBar E (toggleFrame g tw tc tb) app).renderFlags =
        (checkboxes E (toggleFrame g tw tc tb) app.renderFlags []).flags ∧
      setRenderFlagsCalls (frameTrace E (toggleFrame g tw tc tb) app) =
        [clickFlags E Box.BW tb (clickFlags E Box.Cold tc
          (clickFlags E Box.Warm tw app.renderFlags))] ∧
      (∀ i j k, E.SingleBits i j k → app.renderFlags < 2 ^ E.width →
        setRenderFlagsCalls (frameTrace E (toggleFrame g tw tc tb) app) =
            [app.renderFlags ^^^
              ((if tw then E.EnableColorCorrection else 0) |||
                (if tc then E.EnableColdCorrection else 0) |||
                (if tb then E.EnableBWCorrection else 0))] ∧
          ∀ (b : Box) (n : Nat), n = b.bit i j k →
            (app.renderFlags ^^^
              ((if tw then E.EnableColorCorrection else 0) |||
                (if tc then E.EnableColdCorrection else 0) |||
                (if tb then E.EnableBWCorrection else 0))).testBit n =
              (app.renderFlags.testBit n ^^ b.toggle tw tc tb)) := by
  have hc : (render E (toggleFrame g tw tc tb) app.renderFlags).1 = true := by
    rw [render_toggleFrame_changed, h]
  have hf : (render E (toggleFrame g tw tc tb) app.renderFlags).2 =
      (checkboxes E (toggleFrame g tw tc tb) app.renderFlags []).flags := rfl
  have hcalls : setRenderFlagsCalls (frameTrace E (toggleFrame g tw tc tb) app) =
      [(checkboxes E (toggleFrame g tw tc tb) app.renderFlags []).flags] := by
    rw [setRenderFlagsCalls_frameTrace, if_pos hc, hf]
  refine ⟨?_, ?_, RenderMenuBar_trace _ _ _, ?_, ?_, ?_⟩
  · rw [setRenderFlagsCalls_frameTrace, if_pos hc, hf]
  · refine ⟨(physicsBlock (toggleFrame g tw tc tb) { app with trace := [] }).trace ++
        [Event.Separator, Event.GetRenderFlags],
      shown E Box.Warm app.renderFlags,
      shown E Box.Cold (blockFlags E Box.Warm (toggleFrame g tw tc tb).warm app.renderFlags),
      shown E Box.BW (blockFlags E Box.Cold (toggleFrame g tw tc tb).cold
        (blockFlags E Box.Warm (toggleFrame g tw tc tb).warm app.renderFlags)), ?_, ?_, ?_⟩
    · rw [frameTrace_eq, if_pos hc, hf]
      simp only [List.append_assoc, List.cons_append, List.nil_append]
    · rw [setRenderFlagsCalls_append, setRenderFlagsCalls_physicsBlock]
      rfl
    · intro b
      rw [checkboxShown_append, checkboxShown_physicsBlock]
      rfl
  · rw [RenderMenuBar_renderFlags, hf]
  · rw [hcalls, checkboxes_toggleFrame_flags]
  · intro i j k hE hm
    obtain ⟨e1, e2, e3, -, -, -, hij, hik, hjk⟩ := id hE
    refine ⟨?_, ?_⟩
    · rw [hcalls, checkboxes_toggleFrame_xor hE g tw tc tb hm]
    · intro b n hn
      subst hn
      have b1 : ∀ (t : Bool) (p n : Nat),
          (if t then 2 ^ p else 0).testBit n = (decide (n = p) && t) := by
        intro t p n
        cases t
        · simp
        · simp [Nat.testBit_two_pow, eq_comm]
      simp only [Nat.testBit_xor, Nat.testBit_or, e1, e2, e3, b1]
      cases b <;> simp only [Box.bit, Box.toggle]
      · simp [hij, hik]
      · simp [hij.symm, hjk]
      · simp [hik.symm, hjk.symm]

/-- Witness of C5 on the sample declaration: from the mask 2 (cold), all three checkboxes are
clicked in the same frame; the mask 5, with all three bits flipped, is written back once, not
the mask 3 or 1 an earlier block leaves. -/
theorem write_back_once_with_final_mask_witness :
    (true || true || true) = true ∧
      setRenderFlagsCalls (frameTrace sampleDecl (toggleFrame idleGui true true true)
        (sampleApp 2)) = [5] ∧
      clickFlags sampleDecl Box.BW true (clickFlags sampleDecl Box.Cold true
        (clickFlags sampleDecl Box.Warm true (sampleApp 2).renderFlags)) = 5 ∧
      clickFlags sampleDecl Box.Warm true (sampleApp 2).renderFlags = 3 ∧
      clickFlags sampleDecl Box.Cold true
        (clickFlags sampleDecl Box.Warm true (sampleApp 2).renderFlags) = 1 :=
  ⟨rfl,
    (write_back_once_with_final_mask sampleDecl idleGui true true true
      (sampleApp 2) rfl).2.2.2.2.1.trans (by decide),
    by decide, by decide, by decide⟩

/-- C6. With the three feature flags distinct single bits, for every initial mask and every
set of checkboxes clicked in one frame: the resulting mask is the initial mask XOR the OR of
the flags of the clicked checkboxes; each feature bit is flipped exactly when its own checkbox
was clicked, whatever happened to the other two; and running the three checkbox blocks in any
other order gives the same mask. -/
theorem toggles_xor_independent_of_order (E : RenderFlagsDecl) (i j k : Nat)
    (hE : E.SingleBits i j k) (app : App) (hm : app.renderFlags < 2 ^ E.width)
    (g : Nat → Bool × Nat) (tw tc tb : Bool) :
    (RenderMenuBar E (toggleFrame g tw tc tb) app).renderFlags =
        app.renderFlags ^^^
          ((if tw then E.EnableColorCorrection else 0) |||
            (if tc then E.EnableColdCorrection else 0) |||
            (if tb then E.EnableBWCorrection else 0)) ∧
      (∀ b : Box,
        (RenderMenuBar E (toggleFrame g tw tc tb) app).renderFlags.testBit (b.bit i j k) =
          (app.renderFlags.testBit (b.bit i j k) ^^ b.toggle tw tc tb)) ∧
      (∀ (order : List Box) (tr : List Event), order.Perm [Box.Warm, Box.Cold, Box.BW] →
        (checkboxesIn E (toggleFrame g tw tc tb) order
          { flags := app.renderFlags, changed := false, trace := tr }).flags =
          (checkboxes E (toggleFrame g tw tc tb) app.renderFlags tr).flags) := by
  obtain ⟨e1, e2, e3, -, -, -, hij, hik, hjk⟩ := id hE
  have key : ∀ n, (RenderMenuBar E (toggleFrame g tw tc tb) app).renderFlags.testBit n =
      if (n = i ∧ tw = true) ∨ (n = j ∧ tc = true) ∨ (n = k ∧ tb = true) then
        !app.renderFlags.testBit n
      else app.renderFlags.testBit n := by
    intro n
    rw [RenderMenuBar_renderFlags, render_toggleFrame hE g _ _ _ hm]
    simp only [testBit_xor_bit]
    by_cases h1 : n = i
    · subst h1
      cases tw <;> cases tc <;> cases tb <;> simp [hij, hik]
    · by_cases h2 : n = j
      · subst h2
        cases tw <;> cases tc <;> cases tb <;> simp [h1, hjk]
      · by_cases h3 : n = k
        · subst h3
          cases tw <;> cases tc <;> cases tb <;> simp [h1, h2]
        · cases tw <;> cases tc <;> cases tb <;> simp [h1, h2, h3]
  refine ⟨?_, ?_, ?_⟩
  · apply Nat.eq_of_testBit_eq
    intro n
    rw [key, Nat.testBit_xor, Nat.testBit_or, Nat.testBit_or, e1, e2, e3]
    have b1 : ∀ (t : Bool) (p : Nat),
        (if t then 2 ^ p else 0).testBit n = (decide (n = p) && t) := by
      intro t p
      cases t
      · simp
      · simp [Nat.testBit_two_pow, eq_comm]
    rw [b1, b1, b1]
    by_cases h1 : n = i
    · subst h1
      cases tw <;> cases tc <;> cases tb <;> simp [hij, hik]
    · by_cases h2 : n = j
      · subst h2
        cases tw <;> cases tc <;> cases tb <;> simp [h1, hjk]
      · by_cases h3 : n = k
        · subst h3
          cases tw <;> cases tc <;> cases tb <;> simp [h1, h2]
        · cases tw <;> cases tc <;> cases tb <;> simp [h1, h2, h3]
  · intro b
    rw [key]
    cases b <;> simp only [Box.bit, Box.toggle]
    · cases tw <;> simp [hij, hik]
    · cases tc <;> simp [hij.symm, hjk]
    · cases tb <;> simp [hik.symm, hjk.symm]
  · intro order tr hperm
    rw [checkboxes_eq_checkboxesIn,
      checkboxesIn_toggleFrame_flags hE g tw tc tb order _ hm,
      checkboxesIn_toggleFrame_flags hE g tw tc tb _ _ hm]
    apply List.Perm.foldl_eq' hperm
    intro x _ y _ z
    simp only [Nat.xor_assoc]
    congr 1
    exact Nat.xor_comm _ _

/-- Witness of C6 on the sample declaration: from the mask 5, the warm and the
black-and-white checkbox are clicked. -/
theorem toggles_xor_independent_of_order_witness :
    sampleDecl.SingleBits 0 1 2 ∧
      (sampleApp 5).renderFlags < 2 ^ sampleDecl.width ∧
      (RenderMenuBar sampleDecl (toggleFrame idleGui true false true)
        (sampleApp 5)).renderFlags = 0 :=
  ⟨sampleDecl_singleBits, by decide,
    (toggles_xor_independent_of_order sampleDecl 0 1 2 sampleDecl_singleBits
      (sampleApp 5) (by decide)
      idleGui true false true).1.trans (by decide)⟩

/-- C7. With the three feature flags distinct single bits, for every mask read from the render
layer and every behaviour of the three checkboxes in the frame: each checkbox is called once,
and the value of `temp` it is called with is whether its feature bit is set in the mask read
from the render layer, although the second and the third block read the local copy the
earlier blocks may have modified. -/
theorem checkbox_shows_original_bit (E : RenderFlagsDecl) (i j k : Nat)
    (hE : E.SingleBits i j k) (ui : Frame) (app : App) (hm : app.renderFlags < 2 ^ E.width)
    (b : Box) :
    checkboxShown b (frameTrace E ui app) = [toBool (app.renderFlags &&& b.flag E)] ∧
      toBool (app.renderFlags &&& b.flag E) = app.renderFlags.testBit (b.bit i j k) := by
  obtain ⟨-, -, -, -, -, -, hij, hik, hjk⟩ := id hE
  have l1 := blockFlags_lt (hE.flag_lt Box.Warm) ui.warm hm
  have s2 : shown E Box.Cold (blockFlags E Box.Warm ui.warm app.renderFlags) =
      shown E Box.Cold app.renderFlags := by
    rw [shown_of_bit (hE.flag_eq Box.Cold), shown_of_bit (hE.flag_eq Box.Cold)]
    apply testBit_blockFlags_outside (hE.flag_lt Box.Warm) _ hm
    rw [hE.flag_eq Box.Warm]
    exact Nat.testBit_two_pow_of_ne hij
  have s3 : shown E Box.BW (blockFlags E Box.Cold ui.cold
      (blockFlags E Box.Warm ui.warm app.renderFlags)) = shown E Box.BW app.renderFlags := by
    rw [shown_of_bit (hE.flag_eq Box.BW), shown_of_bit (hE.flag_eq Box.BW)]
    have t2 : (Box.Cold.flag E).testBit (Box.BW.bit i j k) = false := by
      rw [hE.flag_eq Box.Cold]
      exact Nat.testBit_two_pow_of_ne hjk
    have t1 : (Box.Warm.flag E).testBit (Box.BW.bit i j k) = false := by
      rw [hE.flag_eq Box.Warm]
      exact Nat.testBit_two_pow_of_ne hik
    rw [testBit_blockFlags_outside (hE.flag_lt Box.Cold) _ l1 t2,
      testBit_blockFlags_outside (hE.flag_lt Box.Warm) _ hm t1]
  refine ⟨?_, ?_⟩
  · rw [frameTrace_eq, checkboxShown_append, checkboxShown_append, checkboxShown_physicsBlock,
      s2, s3]
    have hlast : checkboxShown b (if (render E ui app.renderFlags).1 = true then
        [Event.SetRenderFlags (render E ui app.renderFlags).2] else []) = [] := by
      split_ifs <;> rfl
    rw [hlast]
    cases b <;> simp [checkboxShown, shown]
  · exact shown_of_bit (hE.flag_eq b) _

/-- Witness of C7 on the sample declaration: from the mask 0 the cold checkbox is drawn
unchecked, also when the warm checkbox is clicked in the same frame; by `decide`, so are the
other two. -/
theorem checkbox_shows_original_bit_witness :
    sampleDecl.SingleBits 0 1 2 ∧
      (sampleApp 0).renderFlags < 2 ^ sampleDecl.width ∧
      checkboxShown Box.Cold (frameTrace sampleDecl (toggleFrame idleGui true false false)
        (sampleApp 0)) = [false] ∧
      checkboxShown Box.Warm (frameTrace sampleDecl (toggleFrame idleGui true false false)
        (sampleApp 0)) = [false] ∧
      checkboxShown Box.BW (frameTrace sampleDecl (toggleFrame idleGui true false false)
        (sampleApp 0)) = [false] :=
  ⟨sampleDecl_singleBits, by decide,
    (checkbox_shows_original_bit sampleDecl 0 1 2 sampleDecl_singleBits
      (toggleFrame idleGui true false false)
      (sampleApp 0) (by decide) Box.Cold).1,
    by decide, by decide⟩

/-- C8. With a checkbox flipping its boolean exactly when it reports a change and the three
feature flags distinct single bits, for every initial mask and every set of checkboxes
clicked: `SetRenderFlags` is called in the frame if and only if the final value of `flags`
differs from the mask read from the render layer. -/
theorem write_back_iff_mask_differs (E : RenderFlagsDecl) (i j k : Nat)
    (hE : E.SingleBits i j k) (app : App) (hm : app.renderFlags < 2 ^ E.width)
    (g : Nat → Bool × Nat) (tw tc tb : Bool) :
    (∃ m, Event.SetRenderFlags m ∈ frameTrace E (toggleFrame g tw tc tb) app) ↔
      (checkboxes E (toggleFrame g tw tc tb) app.renderFlags []).flags ≠ app.renderFlags := by
  obtain ⟨-, -, -, -, -, -, hij, hik, hjk⟩ := id hE
  have hf : (checkboxes E (toggleFrame g tw tc tb) app.renderFlags []).flags =
      (render E (toggleFrame g tw tc tb) app.renderFlags).2 := rfl
  have hcalls : (∃ m, Event.SetRenderFlags m ∈ frameTrace E (toggleFrame g tw tc tb) app) ↔
      (tw || tc || tb) = true := by
    rw [frameTrace_eq, physicsBlock_trace, render_toggleFrame_changed]
    constructor
    · rintro ⟨m, hmem⟩
      by_contra hne
      simp only [Bool.not_eq_true] at hne
      rw [hne] at hmem
      simp at hmem
    · intro ht
      refine ⟨(render E (toggleFrame g tw tc tb) app.renderFlags).2, ?_⟩
      rw [ht]
      simp
  rw [hcalls, hf, render_toggleFrame hE g _ _ _ hm]
  constructor
  · intro ht heq
    simp only at heq
    have hbit : ∀ n, (((app.renderFlags ^^^ (if tw then 2 ^ i else 0)) ^^^
        (if tc then 2 ^ j else 0)) ^^^ (if tb then 2 ^ k else 0)).testBit n =
        app.renderFlags.testBit n := fun n => by rw [heq]
    simp only [testBit_xor_bit] at hbit
    have hi := hbit i
    have hj := hbit j
    have hk := hbit k
    cases tw <;> cases tc <;> cases tb <;> simp [hij, hik, hjk, hij.symm, hik.symm, hjk.symm]
      at ht hi hj hk
  · intro hne
    by_contra ht
    simp only [Bool.not_eq_true, Bool.or_eq_false_iff] at ht
    obtain ⟨⟨h1, h2⟩, h3⟩ := ht
    apply hne
    simp [h1, h2, h3]

/-- Witness of C8 on the sample declaration: from the mask 5, clicking the cold checkbox. -/
theorem write_back_iff_mask_differs_witness :
    sampleDecl.SingleBits 0 1 2 ∧
      (sampleApp 5).renderFlags < 2 ^ sampleDecl.width ∧
      ((∃ m, Event.SetRenderFlags m ∈ frameTrace sampleDecl (toggleFrame idleGui false true false)
          (sampleApp 5)) ↔
        (checkboxes sampleDecl (toggleFrame idleGui false true false)
          (sampleApp 5).renderFlags
            []).flags ≠
          (sampleApp 5).renderFlags) :=
  ⟨sampleDecl_singleBits, by decide,
    write_back_iff_mask_differs sampleDecl 0 1 2 sampleDecl_singleBits
      (sampleApp 5) (by decide)
      idleGui false true false⟩

/-- C9, as stated, fails when the target is the assignment the mask already has. On the
sample declaration the mask 5 has warm and black-and-white set and cold clear; for the target
warm set, cold clear, black-and-white set, no set of clicks makes `RenderMenuBar` write back a
mask with that assignment: without a click nothing is written back, and every click flips
one of the three bits. -/
theorem written_back_mask_misses_current_assignment :
    sampleDecl.SingleBits 0 1 2 ∧
      (sampleApp 5).renderFlags < 2 ^ sampleDecl.width ∧
      ((sampleApp 5).renderFlags.testBit 0 = true ∧
        (sampleApp 5).renderFlags.testBit 1 = false ∧
        (sampleApp 5).renderFlags.testBit 2 = true) ∧
      ¬ ∃ tw tc tb : Bool,
        ∃ m ∈ setRenderFlagsCalls
            (frameTrace sampleDecl (toggleFrame idleGui tw tc tb) (sampleApp 5)),
          m.testBit 0 = true ∧ m.testBit 1 = false ∧ m.testBit 2 = true :=
  ⟨sampleDecl_singleBits, by decide, by decide, by decide⟩

/-- C9, amended. With the three feature flags distinct single bits, for every initial mask
and every one of the 8 assignments `(a1, a2, a3)` of the three feature bits there is a set of
checkboxes to click in one frame, namely those whose bit differs from the target, after which
the mask of the render layer has exactly that assignment on the three feature bits and its
other bits as before. That mask is written back by one call of `SetRenderFlags` unless the
target is the assignment the initial mask already has: then no checkbox is clicked and no
call is made. No assignment is rejected or altered. -/
theorem every_combination_reachable (E : RenderFlagsDecl) (i j k : Nat)
    (hE : E.SingleBits i j k) (app : App) (hm : app.renderFlags < 2 ^ E.width)
    (g : Nat → Bool × Nat) (a1 a2 a3 : Bool) :
    ∃ tw tc tb : Bool,
      tw = (app.renderFlags.testBit i ^^ a1) ∧ tc = (app.renderFlags.testBit j ^^ a2) ∧
      tb = (app.renderFlags.testBit k ^^ a3) ∧
      (RenderMenuBar E (toggleFrame g tw tc tb) app).renderFlags.testBit i = a1 ∧
      (RenderMenuBar E (toggleFrame g tw tc tb) app).renderFlags.testBit j = a2 ∧
      (RenderMenuBar E (toggleFrame g tw tc tb) app).renderFlags.testBit k = a3 ∧
      (∀ n, n ≠ i → n ≠ j → n ≠ k →
        (RenderMenuBar E (toggleFrame g tw tc tb) app).renderFlags.testBit n =
          app.renderFlags.testBit n) ∧
      setRenderFlagsCalls (frameTrace E (toggleFrame g tw tc tb) app) =
        (if (tw || tc || tb) = true then
          [(RenderMenuBar E (toggleFrame g tw tc tb) app).renderFlags]
        else []) ∧
      ((tw || tc || tb) = false ↔
        (app.renderFlags.testBit i = a1 ∧ app.renderFlags.testBit j = a2 ∧
          app.renderFlags.testBit k = a3)) := by
  obtain ⟨-, -, -, -, -, -, hij, hik, hjk⟩ := id hE
  refine ⟨_, _, _, rfl, rfl, rfl, ?_, ?_, ?_, ?_, ?_, ?_⟩
  · rw [RenderMenuBar_renderFlags, render_toggleFrame hE g _ _ _ hm]
    simp only [testBit_xor_bit]
    cases app.renderFlags.testBit i <;> cases a1 <;> simp [hij, hik]
  · rw [RenderMenuBar_renderFlags, render_toggleFrame hE g _ _ _ hm]
    simp only [testBit_xor_bit]
    cases app.renderFlags.testBit j <;> cases a2 <;> simp [hij.symm, hjk]
  · rw [RenderMenuBar_renderFlags, render_toggleFrame hE g _ _ _ hm]
    simp only [testBit_xor_bit]
    cases app.renderFlags.testBit k <;> cases a3 <;> simp [hik.symm, hjk.symm]
  · intro n h1 h2 h3
    rw [RenderMenuBar_renderFlags, render_toggleFrame hE g _ _ _ hm]
    simp only [testBit_xor_bit]
    simp [h1, h2, h3]
  · rw [setRenderFlagsCalls_frameTrace, RenderMenuBar_renderFlags, render_toggleFrame_changed]
  · cases app.renderFlags.testBit i <;> cases app.renderFlags.testBit j <;>
      cases app.renderFlags.testBit k <;> cases a1 <;> cases a2 <;> cases a3 <;> simp

/-- Witness of C9, amended, on the sample declaration: from the mask 5 (warm and
black-and-white), the assignment cold only is reached. -/
theorem every_combination_reachable_witness :
    sampleDecl.SingleBits 0 1 2 ∧
      (sampleApp 5).renderFlags < 2 ^ sampleDecl.width ∧
      ∃ tw tc tb : Bool,
        (RenderMenuBar sampleDecl (toggleFrame idleGui tw tc tb)
          (sampleApp 5)).renderFlags.testBit 0 =
            false ∧
        (RenderMenuBar sampleDecl (toggleFrame idleGui tw tc tb)
          (sampleApp 5)).renderFlags.testBit 1 =
            true ∧
        (RenderMenuBar sampleDecl (toggleFrame idleGui tw tc tb)
          (sampleApp 5)).renderFlags.testBit 2 =
            false :=
  ⟨sampleDecl_singleBits, by decide,
    (every_combination_reachable sampleDecl 0 1 2 sampleDecl_singleBits
      (sampleApp 5) (by decide) idleGui
      false true false).imp fun _ h => h.imp fun _ h => h.imp fun _ h =>
        ⟨h.2.2.2.1, h.2.2.2.2.1, h.2.2.2.2.2.1⟩⟩

/-- C10. For every initial mask of the underlying type, every value of the three flag
constants that fits the underlying type (no single-bit or distinctness assumption) and every
behaviour of the three checkboxes (change reported or not, with any new boolean): the final
mask, local and of the render layer, agrees with the initial mask on every bit outside
`EnableColorCorrection | EnableColdCorrection | EnableBWCorrection`. -/
theorem bits_outside_flags_preserved (E : RenderFlagsDecl) (hE : E.InRange) (ui : Frame)
    (app : App) (hm : app.renderFlags < 2 ^ E.width) (n : Nat)
    (hn : (E.EnableColorCorrection ||| E.EnableColdCorrection |||
      E.EnableBWCorrection).testBit n = false) :
    (RenderMenuBar E ui app).renderFlags.testBit n = app.renderFlags.testBit n ∧
      (checkboxes E ui app.renderFlags []).flags.testBit n = app.renderFlags.testBit n := by
  simp only [Nat.testBit_or, Bool.or_eq_false_iff] at hn
  obtain ⟨⟨n1, n2⟩, n3⟩ := hn
  have l1 := blockFlags_lt (hE.flag_fits Box.Warm) ui.warm hm
  have l2 := blockFlags_lt (hE.flag_fits Box.Cold) ui.cold l1
  have key : (checkboxes E ui app.renderFlags []).flags.testBit n =
      app.renderFlags.testBit n := by
    rw [checkboxes_eq]
    simp only
    rw [testBit_blockFlags_outside (hE.flag_fits Box.BW) _ l2 n3,
      testBit_blockFlags_outside (hE.flag_fits Box.Cold) _ l1 n2,
      testBit_blockFlags_outside (hE.flag_fits Box.Warm) _ hm n1]
  refine ⟨?_, key⟩
  rw [RenderMenuBar_renderFlags]
  exact key

/-- Witness of C10 on a declaration whose flags overlap and span several bits (3, 6 and 6 on
eight bits): from the mask 201, bit 3 is kept when every checkbox is clicked. -/
theorem bits_outside_flags_preserved_witness :
    overlapDecl.InRange ∧
      (sampleApp 201).renderFlags < 2 ^ overlapDecl.width ∧
      (overlapDecl.EnableColorCorrection ||| overlapDecl.EnableColdCorrection |||
        overlapDecl.EnableBWCorrection).testBit 3 = false ∧
      (RenderMenuBar overlapDecl (toggleFrame idleGui true true true)
        (sampleApp 201)).renderFlags.testBit 3 =
        true :=
  ⟨overlapDecl_inRange, by decide, by decide,
    (bits_outside_flags_preserved overlapDecl overlapDecl_inRange
      (toggleFrame idleGui true true true)
      (sampleApp 201) (by decide) 3
      (by decide)).1.trans (by decide)⟩

/-! ## The physics debug-draw mode -/

theorem setPhysicsDebugDrawModeCalls_append (xs ys : List Event) :
    setPhysicsDebugDrawModeCalls (xs ++ ys) =
      setPhysicsDebugDrawModeCalls xs ++ setPhysicsDebugDrawModeCalls ys := by
  induction xs with
  | nil => rfl
  | cons x xs ih => cases x <;> simp [setPhysicsDebugDrawModeCalls, ih]

theorem drawModeGuiCalls_append (xs ys : List Event) :
    drawModeGuiCalls (xs ++ ys) = drawModeGuiCalls xs ++ drawModeGuiCalls ys := by
  induction xs with
  | nil => rfl
  | cons x xs ih => cases x <;> simp [drawModeGuiCalls, ih]

theorem physicsBlock_physicsDebugDrawMode (ui : Frame) (app : App) :
    (physicsBlock ui app).physicsDebugDrawMode =
      if (ui.drawModeGui app.physicsDebugDrawMode).1 then
        (ui.drawModeGui app.physicsDebugDrawMode).2
      else app.physicsDebugDrawMode := by
  simp only [physicsBlock]
  split_ifs <;> rfl

theorem RenderMenuBar_physicsDebugDrawMode (E : RenderFlagsDecl) (ui : Frame) (app : App) :
    (RenderMenuBar E ui app).physicsDebugDrawMode =
      if (ui.drawModeGui app.physicsDebugDrawMode).1 then
        (ui.drawModeGui app.physicsDebugDrawMode).2
      else app.physicsDebugDrawMode := by
  rw [← physicsBlock_physicsDebugDrawMode]
  simp only [RenderMenuBar]
  split_ifs <;> rfl

/-- The modes stored in the scene in one frame: the one the control produced, once, when the
control reports a change. -/
theorem setPhysicsDebugDrawModeCalls_frameTrace (E : RenderFlagsDecl) (ui : Frame) (app : App) :
    setPhysicsDebugDrawModeCalls (frameTrace E ui app) =
      if (ui.drawModeGui app.physicsDebugDrawMode).1 then
        [(ui.drawModeGui app.physicsDebugDrawMode).2]
      else [] := by
  rw [frameTrace_eq, physicsBlock_trace, setPhysicsDebugDrawModeCalls_append,
    setPhysicsDebugDrawModeCalls_append]
  split_ifs <;> simp [setPhysicsDebugDrawModeCalls]

theorem drawModeGuiCalls_frameTrace (E : RenderFlagsDecl) (ui : Frame) (app : App) :
    drawModeGuiCalls (frameTrace E ui app) = [app.physicsDebugDrawMode] := by
  rw [frameTrace_eq, physicsBlock_trace, drawModeGuiCalls_append, drawModeGuiCalls_append]
  split_ifs <;> simp [drawModeGuiCalls]

/-- C11. For every current scene mode and every outcome of `BulletDebugDraw::DrawModeGui`:
the control is shown the scene's current mode; `SetPhysicsDebugDrawMode` is called if and only
if the control reports a change, once and with the mode the control produced, so that the
scene then holds that mode and otherwise keeps its own. Replacing the outcome of the physics
control changes neither `changed`, nor the final mask, nor the write-back of the render flags;
replacing the behaviour of the three checkboxes, the mask or the flag declaration changes
neither the calls of `SetPhysicsDebugDrawMode` nor the mode the scene holds afterwards. -/
theorem physics_mode_independent_of_render_flags (E : RenderFlagsDecl) (ui : Frame)
    (app : App) :
    drawModeGuiCalls (frameTrace E ui app) = [app.physicsDebugDrawMode] ∧
      setPhysicsDebugDrawModeCalls (frameTrace E ui app) =
        (if (ui.drawModeGui app.physicsDebugDrawMode).1 then
          [(ui.drawModeGui app.physicsDebugDrawMode).2]
        else []) ∧
      ((∃ mode, Event.SetPhysicsDebugDrawMode mode ∈ frameTrace E ui app) ↔
        (ui.drawModeGui app.physicsDebugDrawMode).1 = true) ∧
      (RenderMenuBar E ui app).physicsDebugDrawMode =
        (if (ui.drawModeGui app.physicsDebugDrawMode).1 then
          (ui.drawModeGui app.physicsDebugDrawMode).2
        else app.physicsDebugDrawMode) ∧
      (∀ (g : Nat → Bool × Nat) (mode : Nat),
        render E { ui with drawModeGui := g } app.renderFlags = render E ui app.renderFlags ∧
        (RenderMenuBar E { ui with drawModeGui := g }
            { app with physicsDebugDrawMode := mode }).renderFlags =
          (RenderMenuBar E ui app).renderFlags ∧
        setRenderFlagsCalls (frameTrace E { ui with drawModeGui := g }
            { app with physicsDebugDrawMode := mode }) =
          setRenderFlagsCalls (frameTrace E ui app)) ∧
      (∀ (E2 : RenderFlagsDecl) (warm cold bw : Checkbox) (flags : Nat),
        (RenderMenuBar E2 { ui with warm := warm, cold := cold, bw := bw }
            { app with renderFlags := flags }).physicsDebugDrawMode =
          (RenderMenuBar E ui app).physicsDebugDrawMode ∧
        setPhysicsDebugDrawModeCalls (frameTrace E2 { ui with warm := warm, cold := cold, bw := bw }
            { app with renderFlags := flags }) =
          setPhysicsDebugDrawModeCalls (frameTrace E ui app)) := by
  refine ⟨drawModeGuiCalls_frameTrace E ui app, setPhysicsDebugDrawModeCalls_frameTrace E ui app,
    ?_, RenderMenuBar_physicsDebugDrawMode E ui app, ?_, ?_⟩
  · rw [frameTrace_eq, physicsBlock_trace]
    constructor
    · rintro ⟨mode, hmem⟩
      by_contra hne
      simp only [Bool.not_eq_true] at hne
      rw [hne] at hmem
      simp only [List.nil_append, Bool.false_eq_true, if_false, List.append_assoc,
        List.cons_append, List.mem_cons, List.mem_append, reduceCtorEq, false_or,
        List.mem_singleton] at hmem
      split_ifs at hmem <;> simp at hmem
    · intro h
      exact ⟨(ui.drawModeGui app.physicsDebugDrawMode).2, by simp [h]⟩
  · intro g mode
    have hr : render E { ui with drawModeGui := g } app.renderFlags =
        render E ui app.renderFlags := rfl
    refine ⟨hr, ?_, ?_⟩
    · rw [RenderMenuBar_renderFlags, RenderMenuBar_renderFlags, hr]
    · rw [setRenderFlagsCalls_frameTrace, setRenderFlagsCalls_frameTrace, hr]
  · intro E2 warm cold bw flags
    refine ⟨?_, ?_⟩
    · rw [RenderMenuBar_physicsDebugDrawMode, RenderMenuBar_physicsDebugDrawMode]
    · rw [setPhysicsDebugDrawModeCalls_frameTrace, setPhysicsDebugDrawModeCalls_frameTrace]

end DebugWindow

namespace DefaultSceneLayer

/-! ## The scene builder -/

set_option maxRecDepth 8000

/-- The body of `_CreateScene` that runs: the toggle `loadScene` is false, so the condition
of the `if` is false whatever the filesystem answers. -/
theorem createScene_eq (fs : String → Bool) :
    _CreateScene fs =
      createShaders ++ loadMeshesAndTextures ++ createSceneAndLuts ++ createMaterials ++
        createLightsAndMeshes ++ setUpCamera ++ createPlane ++ createObjects ++
        createParticlesAndGui ++
        [ .SaveManifest "scene-manifest.json", .SceneSave "scene" "scene.json",
          .LoadScene "scene" ] :=
  rfl

theorem createScene_drop (fs : String → Bool) :
    (_CreateScene fs).drop 227 =
      [ .SaveManifest "scene-manifest.json", .SceneSave "scene" "scene.json",
        .LoadScene "scene" ] :=
  rfl

theorem mem_of_all {p : Call → Bool} {calls : List Call} (h : calls.all p = true) {c : Call}
    (hc : c ∈ calls) : p c = true :=
  List.all_eq_true.mp h c hc

/-- C12. For every state of the filesystem, that is for every answer of
`std::filesystem::exists`, `_CreateScene` makes the same sequence of calls; the sequence never
contains `app.LoadScene("scene.json")` or any other load from a file; it constructs exactly
one scene object, `scene`, and its last call, the only load, is `app.LoadScene(scene)` on
that object. -/
theorem createScene_ignores_filesystem (fs fs2 : String → Bool) :
    _CreateScene fs = _CreateScene fs2 ∧
      (∀ path, Call.LoadSceneFile path ∉ _CreateScene fs) ∧
      count Call.isMakeScene (_CreateScene fs) = 1 ∧
      count Call.isLoad (_CreateScene fs) = 1 ∧
      (∃ pre post, _CreateScene fs = pre ++ Call.MakeScene "scene" :: post ++
        [Call.LoadScene "scene"]) ∧
      (_CreateScene fs).getLast? = some (Call.LoadScene "scene") := by
  refine ⟨rfl, ?_, rfl, rfl, ?_, rfl⟩
  · intro path hmem
    have hall : (_CreateScene fs).all (fun c => !c.isLoadSceneFile) = true := rfl
    have := mem_of_all hall hmem
    simp [Call.isLoadSceneFile] at this
  · exact ⟨createShaders ++ loadMeshesAndTextures, (createSceneAndLuts.drop 1) ++
      createMaterials ++ createLightsAndMeshes ++ setUpCamera ++ createPlane ++
      createObjects ++ createParticlesAndGui ++
      [ Call.SaveManifest "scene-manifest.json", Call.SceneSave "scene" "scene.json" ], rfl⟩

/-- C13. In every run of `_CreateScene`, of its 230 calls the last three are
`ResourceManager::SaveManifest("scene-manifest.json")`, `scene->Save("scene.json")` and
`app.LoadScene(scene)`, in that order; every asset creation (52), every set-up of a light
(4), every `CreateGameObject` (13) and every other change of the scene comes before the
first of them; no save and no load comes earlier. -/
theorem createScene_populates_then_saves (fs : String → Bool) :
    (_CreateScene fs).length = 230 ∧
      (_CreateScene fs)[227]? = some (Call.SaveManifest "scene-manifest.json") ∧
      (_CreateScene fs)[228]? = some (Call.SceneSave "scene" "scene.json") ∧
      (_CreateScene fs)[229]? = some (Call.LoadScene "scene") ∧
      (∀ i c, (_CreateScene fs)[i]? = some c →
        (c.isAssetCreation || c.isLightAssignment || c.isCreateGameObject ||
          c.isSceneMutation) = true → i < 227) ∧
      (∀ i c, (_CreateScene fs)[i]? = some c → i < 227 →
        c.isPopulation = true ∧ c.isSave = false ∧ c.isLoad = false) ∧
      count Call.isAssetCreation (_CreateScene fs) = 52 ∧
      count Call.isLightAssignment (_CreateScene fs) = 4 ∧
      count Call.isCreateGameObject (_CreateScene fs) = 13 := by
  refine ⟨rfl, rfl, rfl, rfl, ?_, ?_, rfl, rfl, rfl⟩
  · intro i c h hp
    by_contra hlt
    obtain ⟨d, rfl⟩ := Nat.exists_eq_add_of_le (Nat.le_of_not_lt hlt)
    rw [← List.getElem?_drop, createScene_drop] at h
    match d, h with
    | 0, h =>
      cases h
      simp [Call.isAssetCreation, Call.isLightAssignment, Call.isCreateGameObject,
        Call.isSceneMutation] at hp
    | 1, h =>
      cases h
      simp [Call.isAssetCreation, Call.isLightAssignment, Call.isCreateGameObject,
        Call.isSceneMutation] at hp
    | 2, h =>
      cases h
      simp [Call.isAssetCreation, Call.isLightAssignment, Call.isCreateGameObject,
        Call.isSceneMutation] at hp
    | d + 3, h => simp at h
  · intro i c h hi
    have hall : ((_CreateScene fs).take 227).all
        (fun c => c.isPopulation && !c.isSave && !c.isLoad) = true := rfl
    have hmem : c ∈ (_CreateScene fs).take 227 := by
      rw [List.mem_iff_getElem?]
      exact ⟨i, by rw [List.getElem?_take_of_lt hi]; exact h⟩
    have hc := mem_of_all hall hmem
    revert hc
    cases c.isPopulation <;> cases c.isSave <;> cases c.isLoad <;> simp

end DefaultSceneLayer
